import Mathlib

/-!
# The axis-aligned rectangle shape of pbrt (src/shapes/plane.h, src/shapes/plane.cpp)

A shallow embedding of the Plane shape: its bound, its two intersection
queries, its area, its uniform sampling routine and the two factory functions.

Scalars.  The source computes in the renderer's Float.  Here a Float is either
a finite value, carried as an exact rational (rounding and overflow are not
modelled), or one of the three IEEE special values: the two infinities and NaN.
The special values follow the IEEE rules: every ordered comparison with NaN is
false, a non-zero finite value divided by zero is an infinity, zero divided by
zero is NaN, infinity times zero is NaN.  Zero carries no sign: a division by
zero takes the sign of the numerator.
-/

set_option linter.unusedVariables false

namespace pbrt

/-! ## Scalars -/

/-- A value of the renderer's scalar type: NaN, minus infinity, plus infinity
or a finite value held as an exact rational. -/
inductive Float where
  | nan : Float
  | ninf : Float
  | pinf : Float
  | fin (q : ℚ) : Float
  deriving DecidableEq

namespace Float

instance : Inhabited Float := ⟨fin 0⟩

instance (n : Nat) : OfNat Float n := ⟨fin n⟩

/-- Unary minus. -/
def neg : Float → Float
  | nan => nan
  | ninf => pinf
  | pinf => ninf
  | fin x => fin (-x)

/-- Addition: opposite infinities cancel to NaN. -/
def add : Float → Float → Float
  | nan, _ => nan
  | _, nan => nan
  | pinf, ninf => nan
  | ninf, pinf => nan
  | pinf, _ => pinf
  | _, pinf => pinf
  | ninf, _ => ninf
  | _, ninf => ninf
  | fin x, fin y => fin (x + y)

/-- Subtraction, the sum with the negated second operand. -/
def sub (x y : Float) : Float := add x (neg y)

/-- The infinity of the given sign. -/
def signedInf (positive : Bool) : Float := if positive then pinf else ninf

/-- An infinity of sign s times a finite value y: NaN when y is zero. -/
def infTimes (positive : Bool) (y : ℚ) : Float :=
  if y = 0 then nan else signedInf (positive == decide (0 < y))

/-- Multiplication: infinity times zero is NaN. -/
def mul : Float → Float → Float
  | nan, _ => nan
  | _, nan => nan
  | pinf, pinf => pinf
  | pinf, ninf => ninf
  | ninf, pinf => ninf
  | ninf, ninf => pinf
  | pinf, fin y => infTimes true y
  | ninf, fin y => infTimes false y
  | fin x, pinf => infTimes true x
  | fin x, ninf => infTimes false x
  | fin x, fin y => fin (x * y)

/-- Division: infinity over infinity and zero over zero are NaN, a non-zero
finite value over zero is the infinity with the sign of the numerator, a
finite value over an infinity is zero. -/
def div : Float → Float → Float
  | nan, _ => nan
  | _, nan => nan
  | pinf, pinf => nan
  | pinf, ninf => nan
  | ninf, pinf => nan
  | ninf, ninf => nan
  | pinf, fin y => signedInf (decide (0 ≤ y))
  | ninf, fin y => signedInf (decide (y < 0))
  | fin _, pinf => fin 0
  | fin _, ninf => fin 0
  | fin x, fin y =>
    if y = 0 then (if x = 0 then nan else signedInf (decide (0 < x)))
    else fin (x / y)

/-- The comparison x <= y; false as soon as an operand is NaN. -/
def le : Float → Float → Bool
  | nan, _ => false
  | _, nan => false
  | ninf, _ => true
  | _, pinf => true
  | pinf, _ => false
  | _, ninf => false
  | fin x, fin y => decide (x ≤ y)

/-- The comparison x < y; false as soon as an operand is NaN. -/
def lt : Float → Float → Bool
  | nan, _ => false
  | _, nan => false
  | pinf, _ => false
  | _, ninf => false
  | ninf, _ => true
  | _, pinf => true
  | fin x, fin y => decide (x < y)

instance : Neg Float := ⟨neg⟩
instance : Add Float := ⟨add⟩
instance : Sub Float := ⟨sub⟩
instance : Mul Float := ⟨mul⟩
instance : Div Float := ⟨div⟩
instance : LE Float := ⟨fun x y => le x y = true⟩
instance : LT Float := ⟨fun x y => lt x y = true⟩

instance (x y : Float) : Decidable (x ≤ y) := inferInstanceAs (Decidable (le x y = true))
instance (x y : Float) : Decidable (x < y) := inferInstanceAs (Decidable (lt x y = true))

end Float

/-! ## Geometry types of the host renderer -/

/-- Modelled from the spec: the renderer's Point3f (core/geometry.h is not under
src/), a triple of scalars. -/
structure Point3f where
  x : Float
  y : Float
  z : Float
  deriving DecidableEq

/-- Modelled from the spec: the renderer's Vector3f (core/geometry.h is not
under src/), a triple of scalars. -/
structure Vector3f where
  x : Float
  y : Float
  z : Float
  deriving DecidableEq

/-- Modelled from the spec: the renderer's Normal3f (core/geometry.h is not
under src/), a triple of scalars. -/
structure Normal3f where
  x : Float
  y : Float
  z : Float
  deriving DecidableEq

/-- Modelled from the spec: the renderer's Point2f (core/geometry.h is not under
src/); the source reads its components as u[0] and u[1]. -/
structure Point2f where
  x : Float
  y : Float
  deriving DecidableEq

/-- Component access u[i] of a Point2f: index 0 is x, any other index is y. -/
def Point2f.get (u : Point2f) (i : Nat) : Float := if i = 0 then u.x else u.y

/-- Vector scaled by a scalar, d * t. -/
def Vector3f.scale (d : Vector3f) (t : Float) : Vector3f := ⟨d.x * t, d.y * t, d.z * t⟩

/-- Negated vector, -d. -/
def Vector3f.neg (d : Vector3f) : Vector3f := ⟨-d.x, -d.y, -d.z⟩

/-- Point offset by a vector, p + v. -/
def Point3f.addVec (p : Point3f) (v : Vector3f) : Point3f := ⟨p.x + v.x, p.y + v.y, p.z + v.z⟩

/-- Normal scaled by a scalar, n * f. -/
def Normal3f.scale (n : Normal3f) (f : Float) : Normal3f := ⟨n.x * f, n.y * f, n.z * f⟩

/-- Modelled from the spec: Normalize on Normal3f (core/geometry.h is not under
src/): the normal divided by its length, computed as the product with the
reciprocal of the length.  The square root is a parameter. -/
def Normalize (sqrt : Float → Float) (n : Normal3f) : Normal3f :=
  n.scale (1 / sqrt (n.x * n.x + n.y * n.y + n.z * n.z))

/-- Modelled from the spec: the renderer's Ray (core/geometry.h is not under
src/): origin, direction, the exclusive maximum parameter tMax and the time.
The medium pointer carries no geometry and is left out. -/
structure Ray where
  o : Point3f
  d : Vector3f
  tMax : Float
  time : Float
  deriving DecidableEq

/-- Modelled from the spec: the ray evaluated at parameter t, ray(t) = o + d * t. -/
def Ray.at (r : Ray) (t : Float) : Point3f := r.o.addVec (r.d.scale t)

/-- Modelled from the spec: the renderer's Bounds3f (core/geometry.h is not
under src/): an axis-aligned box given by its two corners, stored as the spec
of the bound states them (section 4.2). -/
structure Bounds3f where
  pMin : Point3f
  pMax : Point3f
  deriving DecidableEq

/-- Modelled from the spec: containment of a point in a box, bounds included. -/
def Bounds3f.Inside (p : Point3f) (b : Bounds3f) : Prop :=
  b.pMin.x ≤ p.x ∧ p.x ≤ b.pMax.x ∧ b.pMin.y ≤ p.y ∧ p.y ≤ b.pMax.y ∧
    b.pMin.z ≤ p.z ∧ p.z ≤ b.pMax.z

instance (p : Point3f) (b : Bounds3f) : Decidable (Bounds3f.Inside p b) := by
  unfold Bounds3f.Inside; infer_instance

/-- Modelled from the spec: the hit record (SurfaceInteraction, core/interaction.h
is not under src/), as the fields its constructor takes (section 6): point,
positional error bound, surface parametrization, outgoing direction, the two
tangent vectors, the two normal derivatives and the ray time.  The
back-pointer to the shape is left out. -/
structure SurfaceInteraction where
  p : Point3f
  pError : Vector3f
  uv : Point2f
  wo : Vector3f
  dpdu : Vector3f
  dpdv : Vector3f
  dndu : Normal3f
  dndv : Normal3f
  time : Float
  deriving DecidableEq

/-- Modelled from the spec: the point-with-normal record returned by sampling
(Interaction, core/interaction.h is not under src/). -/
structure Interaction where
  p : Point3f
  pError : Vector3f
  n : Normal3f
  deriving DecidableEq

/-- Modelled from the spec: a coordinate transform (core/transform.h is not
under src/), as the four applications the shape calls (section 6): to a ray
(the error bounds it also yields are discarded by the shape), to a hit record,
to a normal, and to a point with its error bound (yielding the point and its
new error bound). -/
structure Transform where
  ray : Ray → Ray
  si : SurfaceInteraction → SurfaceInteraction
  normal : Normal3f → Normal3f
  point : Point3f → Vector3f → Point3f × Vector3f

/-- Modelled from the spec: the identity transform in exact arithmetic, which
leaves rays, hit records, normals and points with their error bounds unchanged
(the renormalization of directions by the renderer is not modelled). -/
def Transform.identity : Transform :=
  ⟨fun r => r, fun s => s, fun n => n, fun p e => (p, e)⟩

/-! ## The shape (plane.h) -/

/-- The three orientations, Plane::PlaneAxis. -/
inductive PlaneAxis where
  | XY : PlaneAxis
  | XZ : PlaneAxis
  | YZ : PlaneAxis
  deriving DecidableEq

/-- The shape: the fields of the Shape base class (the transform pair and the
orientation-reversal flag) and the private fields of Plane. -/
structure Plane where
  ObjectToWorld : Transform
  WorldToObject : Transform
  reverseOrientation : Bool
  a0 : Float
  a1 : Float
  b0 : Float
  b1 : Float
  c : Float
  axisType : PlaneAxis

/-! ## The methods (plane.cpp) -/

/-- Plane::ObjectBound, plane.cpp lines 8-20. -/
def Plane.ObjectBound (P : Plane) : Bounds3f :=
  match P.axisType with
  | PlaneAxis.XY => Bounds3f.mk (Point3f.mk P.a0 P.b0 P.c) (Point3f.mk P.a1 P.b1 P.c)
  | PlaneAxis.XZ => Bounds3f.mk (Point3f.mk P.a0 P.c P.b0) (Point3f.mk P.a1 P.c P.b1)
  | PlaneAxis.YZ => Bounds3f.mk (Point3f.mk P.c P.a0 P.b0) (Point3f.mk P.c P.a1 P.b1)

/-- Plane::Intersect, plane.cpp lines 22-81.  The result is none when the
source returns false, and the pair of the values written to tHit and to isect
when it returns true. -/
def Plane.Intersect (P : Plane) (r : Ray) (testAlphaTexture : Bool) :
    Option (Float × SurfaceInteraction) :=
  let ray := P.WorldToObject.ray r
  let abc : (Float × Float × Float) × (Float × Float × Float) :=
    match P.axisType with
    | PlaneAxis.XY => ((ray.o.x, ray.o.y, ray.o.z), (ray.d.x, ray.d.y, ray.d.z))
    | PlaneAxis.XZ => ((ray.o.x, ray.o.z, ray.o.y), (ray.d.x, ray.d.z, ray.d.y))
    | PlaneAxis.YZ => ((ray.o.y, ray.o.z, ray.o.x), (ray.d.y, ray.d.z, ray.d.x))
  let ro_a := abc.1.1
  let ro_b := abc.1.2.1
  let ro_c := abc.1.2.2
  let rd_a := abc.2.1
  let rd_b := abc.2.2.1
  let rd_c := abc.2.2.2
  let tShapeHit := (P.c - ro_c) / rd_c
  if tShapeHit ≤ 0 ∨ tShapeHit ≥ ray.tMax then none
  else
    let a := ro_a + tShapeHit * rd_a
    let b := ro_b + tShapeHit * rd_b
    if a ≤ P.a0 ∨ a ≥ P.a1 ∨ b ≤ P.b0 ∨ b ≥ P.b1 then none
    else
      let pHit := ray.at tShapeHit
      let u := (a - P.a0) / (P.a1 - P.a0)
      let v := (b - P.b0) / (P.b1 - P.b0)
      let dpdu : Vector3f := ⟨1, 0, 0⟩
      let dpdv : Vector3f := ⟨0, 1, 0⟩
      let dndu : Normal3f := ⟨0, 0, 0⟩
      let dndv : Normal3f := ⟨0, 0, 0⟩
      let pError : Vector3f := ⟨0, 0, 0⟩
      some (tShapeHit,
        P.ObjectToWorld.si
          (SurfaceInteraction.mk pHit pError (Point2f.mk u v) r.d.neg dpdu dpdv dndu dndv r.time))

/-- Plane::IntersectP, plane.cpp lines 83-124. -/
def Plane.IntersectP (P : Plane) (r : Ray) (testAlphaTexture : Bool) : Bool :=
  let ray := P.WorldToObject.ray r
  let abc : (Float × Float × Float) × (Float × Float × Float) :=
    match P.axisType with
    | PlaneAxis.XY => ((ray.o.x, ray.o.y, ray.o.z), (ray.d.x, ray.d.y, ray.d.z))
    | PlaneAxis.XZ => ((ray.o.x, ray.o.z, ray.o.y), (ray.d.x, ray.d.z, ray.d.y))
    | PlaneAxis.YZ => ((ray.o.y, ray.o.z, ray.o.x), (ray.d.y, ray.d.z, ray.d.x))
  let ro_a := abc.1.1
  let ro_b := abc.1.2.1
  let ro_c := abc.1.2.2
  let rd_a := abc.2.1
  let rd_b := abc.2.2.1
  let rd_c := abc.2.2.2
  let tShapeHit := (P.c - ro_c) / rd_c
  if tShapeHit ≤ 0 ∨ tShapeHit ≥ ray.tMax then false
  else
    let a := ro_a + tShapeHit * rd_a
    let b := ro_b + tShapeHit * rd_b
    if a < P.a0 ∨ a > P.a1 ∨ b < P.b0 ∨ b > P.b1 then false
    else true

/-- Plane::Area, plane.cpp lines 126-128. -/
def Plane.Area (P : Plane) : Float := (P.a1 - P.a0) * (P.b1 - P.b0)

/-- The literal 0.0001 of Plane::Sample. -/
def sampleDepth : Float := Float.fin (1 / 10000)

/-- Plane::Sample, plane.cpp lines 130-151.  The result is the returned
Interaction and the value written to pdf.  The square root used by Normalize
is a parameter. -/
def Plane.Sample (sqrt : Float → Float) (P : Plane) (u : Point2f) : Interaction × Float :=
  let np : Normal3f × Point3f :=
    match P.axisType with
    | PlaneAxis.XY =>
      (Normalize sqrt (P.ObjectToWorld.normal ⟨0, 0, 1⟩),
        Point3f.mk ((P.a1 - P.a0) * u.get 0) ((P.b1 - P.b0) * u.get 1) sampleDepth)
    | PlaneAxis.XZ =>
      (Normalize sqrt (P.ObjectToWorld.normal ⟨0, 1, 0⟩),
        Point3f.mk ((P.a1 - P.a0) * u.get 0) sampleDepth ((P.b1 - P.b0) * u.get 1))
    | PlaneAxis.YZ =>
      (Normalize sqrt (P.ObjectToWorld.normal ⟨1, 0, 0⟩),
        Point3f.mk sampleDepth ((P.a1 - P.a0) * u.get 0) ((P.b1 - P.b0) * u.get 1))
  let n := if P.reverseOrientation then np.1.scale (-1) else np.1
  let pe := P.ObjectToWorld.point np.2 ⟨0, 0, 0⟩
  (Interaction.mk pe.1 pe.2 n, 1 / P.Area)

/-- CreatePlaneShape, plane.cpp lines 153-160: the constructor of plane.h. -/
def CreatePlaneShape (o2w w2o : Transform) (reverseOrientation : Bool)
    (a0 a1 b0 b1 c : Float) (axisType : PlaneAxis) : Plane :=
  Plane.mk o2w w2o reverseOrientation a0 a1 b0 b1 c axisType

/-- CreateAABBShape, plane.cpp lines 162-187. -/
def CreateAABBShape (o2w w2o : Transform) (reverseOrientation : Bool)
    (pMin pMax : Point3f) : List Plane :=
  [ CreatePlaneShape o2w w2o reverseOrientation pMin.x pMax.x pMin.y pMax.y pMin.z PlaneAxis.XY,
    CreatePlaneShape o2w w2o reverseOrientation pMin.x pMax.x pMin.y pMax.y pMin.z PlaneAxis.XY,
    CreatePlaneShape o2w w2o reverseOrientation pMin.x pMax.x pMin.z pMax.z pMin.y PlaneAxis.XZ,
    CreatePlaneShape o2w w2o reverseOrientation pMin.x pMax.x pMin.z pMax.z pMin.y PlaneAxis.XZ,
    CreatePlaneShape o2w w2o reverseOrientation pMin.y pMax.y pMin.z pMax.z pMin.x PlaneAxis.YZ,
    CreatePlaneShape o2w w2o reverseOrientation pMin.y pMax.y pMin.z pMax.z pMin.x PlaneAxis.YZ ]

/-! ## The coordinate remap of the specification -/

/-- The remap of section 4.1 of the specification, in its words: for XY,
(a,b,c) = (x,y,z); for XZ, (a,b,c) = (x,z,y); for YZ, (a,b,c) = (y,z,x). -/
def remap {α : Type} : PlaneAxis → α × α × α → α × α × α
  | PlaneAxis.XY, (x, y, z) => (x, y, z)
  | PlaneAxis.XZ, (x, y, z) => (x, z, y)
  | PlaneAxis.YZ, (x, y, z) => (y, z, x)

/-- The placement of section 4.2 of the specification: the in-plane values
(a, b) go to the two in-plane axes and c to the depth axis. -/
def place {α : Type} : PlaneAxis → α × α × α → α × α × α
  | PlaneAxis.XY, (a, b, c) => (a, b, c)
  | PlaneAxis.XZ, (a, b, c) => (a, c, b)
  | PlaneAxis.YZ, (a, b, c) => (c, a, b)

/-- The point with the given coordinate triple. -/
def Point3f.ofTriple (t : Float × Float × Float) : Point3f := ⟨t.1, t.2.1, t.2.2⟩

/-- The coordinate triple of a point. -/
def Point3f.toTriple (p : Point3f) : Float × Float × Float := (p.x, p.y, p.z)

/-- The coordinate triple of a vector. -/
def Vector3f.toTriple (v : Vector3f) : Float × Float × Float := (v.x, v.y, v.z)

/-- The vector with the given coordinate triple. -/
def Vector3f.ofTriple (t : Float × Float × Float) : Vector3f := ⟨t.1, t.2.1, t.2.2⟩

/-- The point of finite coordinates given by a rational triple. -/
def Point3f.ofRat (p : ℚ × ℚ × ℚ) : Point3f := ⟨Float.fin p.1, Float.fin p.2.1, Float.fin p.2.2⟩

/-- The vector of finite coordinates given by a rational triple. -/
def Vector3f.ofRat (v : ℚ × ℚ × ℚ) : Vector3f := ⟨Float.fin v.1, Float.fin v.2.1, Float.fin v.2.2⟩

/-- The ray whose origin and direction are the remapped origin and direction. -/
def remapRay (ax : PlaneAxis) (ray : Ray) : Ray :=
  Ray.mk (Point3f.ofTriple (remap ax ray.o.toTriple)) (Vector3f.ofTriple (remap ax ray.d.toTriple))
    ray.tMax ray.time

/-- The plane with the same fields in orientation XY, whose world-to-object
transform is followed by the remap of the plane's own orientation: the
orientation-free test of the specification, run on the (a,b,c) coordinates of
the object-space ray. -/
def Plane.onRemappedRay (P : Plane) : Plane :=
  Plane.mk P.ObjectToWorld
    (Transform.mk (fun r => remapRay P.axisType (P.WorldToObject.ray r)) P.WorldToObject.si
      P.WorldToObject.normal P.WorldToObject.point)
    P.reverseOrientation P.a0 P.a1 P.b0 P.b1 P.c PlaneAxis.XY

/-- The normal with the given coordinate triple. -/
def Normal3f.ofTriple (t : Float × Float × Float) : Normal3f := ⟨t.1, t.2.1, t.2.2⟩

/-- Modelled from the spec: the dot product of a normal and a vector
(core/geometry.h is not under src/). -/
def Dot (n : Normal3f) (v : Vector3f) : Float := n.x * v.x + n.y * v.y + n.z * v.z

/-- The in-plane coordinates (a, b) at which the object-space ray meets the
plane of the rectangle, in the words of the specification (section 4.3, steps
2, 3 and 5): the ray is remapped, t = (c - origin_c)/direction_c, and
a = origin_a + t*direction_a, b = origin_b + t*direction_b. -/
def Plane.hitCoords (P : Plane) (r : Ray) : Float × Float :=
  let ray := P.WorldToObject.ray r
  let o := remap P.axisType ray.o.toTriple
  let d := remap P.axisType ray.d.toTriple
  let t := (P.c - o.2.2) / d.2.2
  (o.1 + t * d.1, o.2.1 + t * d.2.1)

/-! ## Affine transforms -/

/-- An affine map of rational 3-space: the rows of its linear part, each
followed by the translation entry. -/
structure Affine3 where
  m00 : ℚ
  m01 : ℚ
  m02 : ℚ
  m03 : ℚ
  m10 : ℚ
  m11 : ℚ
  m12 : ℚ
  m13 : ℚ
  m20 : ℚ
  m21 : ℚ
  m22 : ℚ
  m23 : ℚ

/-- The image of a point: linear part and translation. -/
def Affine3.point (A : Affine3) (p : ℚ × ℚ × ℚ) : ℚ × ℚ × ℚ :=
  (A.m00 * p.1 + A.m01 * p.2.1 + A.m02 * p.2.2 + A.m03,
    A.m10 * p.1 + A.m11 * p.2.1 + A.m12 * p.2.2 + A.m13,
    A.m20 * p.1 + A.m21 * p.2.1 + A.m22 * p.2.2 + A.m23)

/-- The image of a vector: linear part only. -/
def Affine3.vector (A : Affine3) (v : ℚ × ℚ × ℚ) : ℚ × ℚ × ℚ :=
  (A.m00 * v.1 + A.m01 * v.2.1 + A.m02 * v.2.2,
    A.m10 * v.1 + A.m11 * v.2.1 + A.m12 * v.2.2,
    A.m20 * v.1 + A.m21 * v.2.1 + A.m22 * v.2.2)

/-- The identity map. -/
def Affine3.identity : Affine3 := ⟨1, 0, 0, 0, 0, 1, 0, 0, 0, 0, 1, 0⟩

/-- A translation. -/
def Affine3.translate (x y z : ℚ) : Affine3 := ⟨1, 0, 0, x, 0, 1, 0, y, 0, 0, 1, z⟩

/-- Modelled from the spec: the translation by (x, y, z) in exact arithmetic:
points, ray origins and hit points are offset; directions, normals, tangent
vectors and error bounds are unchanged (the renormalization of directions by
the renderer is not modelled). -/
def Transform.translation (x y z : ℚ) : Transform :=
  Transform.mk
    (fun r => Ray.mk (r.o.addVec (Vector3f.ofRat (x, y, z))) r.d r.tMax r.time)
    (fun s => SurfaceInteraction.mk (s.p.addVec (Vector3f.ofRat (x, y, z))) s.pError s.uv s.wo
      s.dpdu s.dpdv s.dndu s.dndv s.time)
    (fun n => n)
    (fun p e => (p.addVec (Vector3f.ofRat (x, y, z)), e))

/-- The transform T is affine with map A: on a ray of finite coordinates it
maps the origin as a point and the direction as a vector and keeps tMax and
time, and it maps the point of a hit record of finite coordinates as a point. -/
structure Transform.ActsAs (T : Transform) (A : Affine3) : Prop where
  ray : ∀ (o d : ℚ × ℚ × ℚ) (tMax time : Float),
    T.ray (Ray.mk (Point3f.ofRat o) (Vector3f.ofRat d) tMax time) =
      Ray.mk (Point3f.ofRat (A.point o)) (Vector3f.ofRat (A.vector d)) tMax time
  hitPoint : ∀ (s : SurfaceInteraction) (p : ℚ × ℚ × ℚ),
    s.p = Point3f.ofRat p → (T.si s).p = Point3f.ofRat (A.point p)

/-! ## Arithmetic of finite values -/

namespace Float

theorem zero_eq : (0 : Float) = fin 0 := by
  show fin ((0 : ℕ) : ℚ) = fin 0
  simp

theorem one_eq : (1 : Float) = fin 1 := by
  show fin ((1 : ℕ) : ℚ) = fin 1
  simp

@[simp] theorem fin_add (x y : ℚ) : fin x + fin y = fin (x + y) := rfl

@[simp] theorem fin_sub (x y : ℚ) : fin x - fin y = fin (x - y) := by
  show fin (x + -y) = fin (x - y)
  rw [sub_eq_add_neg]

@[simp] theorem fin_mul (x y : ℚ) : fin x * fin y = fin (x * y) := rfl

@[simp] theorem fin_neg (x : ℚ) : -fin x = fin (-x) := rfl

theorem fin_div (x y : ℚ) (h : y ≠ 0) : fin x / fin y = fin (x / y) := by
  show (if y = 0 then (if x = 0 then nan else signedInf (decide (0 < x))) else fin (x / y))
    = fin (x / y)
  rw [if_neg h]

@[simp] theorem fin_le (x y : ℚ) : fin x ≤ fin y ↔ x ≤ y := by
  show decide (x ≤ y) = true ↔ x ≤ y
  simp

@[simp] theorem fin_lt (x y : ℚ) : fin x < fin y ↔ x < y := by
  show decide (x < y) = true ↔ x < y
  simp

@[simp] theorem fin_le_pinf (x : ℚ) : fin x ≤ pinf := rfl
@[simp] theorem fin_lt_pinf (x : ℚ) : fin x < pinf := rfl
@[simp] theorem ninf_le_fin (x : ℚ) : ninf ≤ fin x := rfl
@[simp] theorem ninf_lt_fin (x : ℚ) : ninf < fin x := rfl
@[simp] theorem not_pinf_le_fin (x : ℚ) : ¬ pinf ≤ fin x := by
  show ¬ (false = true); simp
@[simp] theorem not_fin_le_ninf (x : ℚ) : ¬ fin x ≤ ninf := by
  show ¬ (false = true); simp
@[simp] theorem not_fin_lt_ninf (x : ℚ) : ¬ fin x < ninf := by
  show ¬ (false = true); simp
@[simp] theorem not_pinf_lt_fin (x : ℚ) : ¬ pinf < fin x := by
  show ¬ (false = true); simp
@[simp] theorem not_nan_le (x : Float) : ¬ nan ≤ x := by
  cases x <;> (show ¬ (false = true); simp)
@[simp] theorem not_nan_lt (x : Float) : ¬ nan < x := by
  cases x <;> (show ¬ (false = true); simp)
@[simp] theorem not_le_nan (x : Float) : ¬ x ≤ nan := by
  cases x <;> (show ¬ (false = true); simp)
@[simp] theorem not_lt_nan (x : Float) : ¬ x < nan := by
  cases x <;> (show ¬ (false = true); simp)

@[simp] theorem nan_mul (x : Float) : nan * x = nan := by
  cases x <;> rfl

@[simp] theorem add_nan (x : Float) : x + nan = nan := by
  cases x <;> rfl

@[simp] theorem nan_add (x : Float) : nan + x = nan := by
  cases x <;> rfl

@[simp] theorem nan_sub (x : Float) : nan - x = nan := by
  cases x <;> rfl

@[simp] theorem nan_div (x : Float) : nan / x = nan := by
  cases x <;> rfl

theorem fin_div_zero_self : fin 0 / fin 0 = nan := by
  show (if (0 : ℚ) = 0 then (if (0 : ℚ) = 0 then nan else signedInf (decide ((0 : ℚ) < 0)))
    else fin (0 / 0)) = nan
  simp

theorem fin_div_zero (x : ℚ) (h : x ≠ 0) : fin x / fin 0 = signedInf (decide (0 < x)) := by
  show (if (0 : ℚ) = 0 then (if x = 0 then nan else signedInf (decide (0 < x)))
    else fin (x / 0)) = signedInf (decide (0 < x))
  simp [h]

theorem le_pinf_of_ne_nan (m : Float) (h : m ≠ nan) : m ≤ pinf := by
  cases m with
  | nan => exact absurd rfl h
  | ninf => rfl
  | pinf => rfl
  | fin q => rfl

theorem le_of_lt (x y : Float) (h : x < y) : x ≤ y := by
  cases x <;> cases y <;> first
    | rfl
    | exact absurd h (by show ¬ (false = true); simp)
    | exact (fin_le _ _).mpr ((fin_lt _ _).mp h).le

theorem eq_of_le_of_not_lt (x y : Float) (h : x ≤ y) (hn : ¬ x < y) : x = y := by
  cases x <;> cases y <;> first
    | rfl
    | exact absurd h (by show ¬ (false = true); simp)
    | exact (hn rfl).elim
    | exact congrArg fin (le_antisymm ((fin_le _ _).mp h)
        (not_lt.mp (fun hl => hn ((fin_lt _ _).mpr hl))))

theorem le_fin_iff_not_lt (m : Float) (t : ℚ) (h : m ≠ nan) : m ≤ fin t ↔ ¬ fin t < m := by
  cases m with
  | nan => exact absurd rfl h
  | ninf => simp
  | pinf => simp
  | fin q => simp

end Float

/-! ## The two intersection queries on finite input -/

/-- Plane::Intersect on finite input, in closed form: for a rectangle and an
object-space ray of finite coordinates with a non-zero depth direction
component dc, the query accepts exactly when t = (c - oc)/dc is positive, the
comparison tMax <= t fails, and a and b lie strictly inside their intervals;
it then reports t and the transformed hit record. -/
theorem Plane.Intersect_finite
    (o2w w2o : Transform) (rev alpha : Bool) (ax : PlaneAxis) (a0 a1 b0 b1 c : ℚ)
    (r : Ray) (ox oy oz dx dy dz : ℚ) (tMax time : Float) (oa ob oc da db dc : ℚ)
    (hray : w2o.ray r = Ray.mk ⟨Float.fin ox, Float.fin oy, Float.fin oz⟩
      ⟨Float.fin dx, Float.fin dy, Float.fin dz⟩ tMax time)
    (ho : remap ax (ox, oy, oz) = (oa, ob, oc))
    (hd : remap ax (dx, dy, dz) = (da, db, dc))
    (hdc : dc ≠ 0) :
    (CreatePlaneShape o2w w2o rev (Float.fin a0) (Float.fin a1) (Float.fin b0)
      (Float.fin b1) (Float.fin c) ax).Intersect r alpha =
    if (0 < (c - oc) / dc ∧ ¬ tMax ≤ Float.fin ((c - oc) / dc)) ∧
        (a0 < oa + (c - oc) / dc * da ∧ oa + (c - oc) / dc * da < a1) ∧
        (b0 < ob + (c - oc) / dc * db ∧ ob + (c - oc) / dc * db < b1) then
      some (Float.fin ((c - oc) / dc),
        o2w.si (SurfaceInteraction.mk
          ⟨Float.fin (ox + dx * ((c - oc) / dc)), Float.fin (oy + dy * ((c - oc) / dc)),
            Float.fin (oz + dz * ((c - oc) / dc))⟩
          ⟨0, 0, 0⟩
          ⟨Float.fin ((oa + (c - oc) / dc * da - a0) / (a1 - a0)),
            Float.fin ((ob + (c - oc) / dc * db - b0) / (b1 - b0))⟩
          r.d.neg ⟨1, 0, 0⟩ ⟨0, 1, 0⟩ ⟨0, 0, 0⟩ ⟨0, 0, 0⟩ r.time))
    else none := by
  have n1 : (0 < (c - oc) / dc ∧ ¬ tMax ≤ Float.fin ((c - oc) / dc)) ↔
      ¬ ((c - oc) / dc ≤ 0 ∨ tMax ≤ Float.fin ((c - oc) / dc)) := by
    simp only [not_or, not_le]
  have n2 : ((a0 < oa + (c - oc) / dc * da ∧ oa + (c - oc) / dc * da < a1) ∧
        (b0 < ob + (c - oc) / dc * db ∧ ob + (c - oc) / dc * db < b1)) ↔
      ¬ (oa + (c - oc) / dc * da ≤ a0 ∨ a1 ≤ oa + (c - oc) / dc * da ∨
        ob + (c - oc) / dc * db ≤ b0 ∨ b1 ≤ ob + (c - oc) / dc * db) := by
    simp only [not_or, not_le, and_assoc]
  cases ax <;> simp only [remap, Prod.mk.injEq] at ho hd <;>
    obtain ⟨ho1, ho2, ho3⟩ := ho <;> obtain ⟨hd1, hd2, hd3⟩ := hd <;>
    subst ox oy oz dx dy dz <;>
    simp only [Plane.Intersect, CreatePlaneShape, hray, Float.fin_sub, Float.fin_div _ _ hdc,
      Float.zero_eq, Float.fin_mul, Float.fin_add, Float.fin_le, ge_iff_le,
      Ray.at, Point3f.addVec, Vector3f.scale] <;>
    (by_cases hD : (0 < (c - oc) / dc ∧ ¬ tMax ≤ Float.fin ((c - oc) / dc)) ∧
        (a0 < oa + (c - oc) / dc * da ∧ oa + (c - oc) / dc * da < a1) ∧
        (b0 < ob + (c - oc) / dc * db ∧ ob + (c - oc) / dc * db < b1)
     · have hA : a1 - a0 ≠ 0 := sub_ne_zero.mpr (ne_of_gt (lt_trans hD.2.1.1 hD.2.1.2))
       have hB : b1 - b0 ≠ 0 := sub_ne_zero.mpr (ne_of_gt (lt_trans hD.2.2.1 hD.2.2.2))
       rw [if_pos hD, if_neg (n1.mp hD.1), if_neg (n2.mp hD.2), Float.fin_div _ _ hA,
         Float.fin_div _ _ hB]
     · rw [if_neg hD]
       by_cases h1 : (c - oc) / dc ≤ 0 ∨ tMax ≤ Float.fin ((c - oc) / dc)
       · rw [if_pos h1]
       · rw [if_neg h1]
         by_cases h2 : oa + (c - oc) / dc * da ≤ a0 ∨ a1 ≤ oa + (c - oc) / dc * da ∨
             ob + (c - oc) / dc * db ≤ b0 ∨ b1 ≤ ob + (c - oc) / dc * db
         · rw [if_pos h2]
         · exact absurd ⟨n1.mpr h1, n2.mpr h2⟩ hD)

/-- Plane::IntersectP on finite input, in closed form: the same test on t, with
a and b compared against the closed intervals. -/
theorem Plane.IntersectP_finite
    (o2w w2o : Transform) (rev alpha : Bool) (ax : PlaneAxis) (a0 a1 b0 b1 c : ℚ)
    (r : Ray) (ox oy oz dx dy dz : ℚ) (tMax time : Float) (oa ob oc da db dc : ℚ)
    (hray : w2o.ray r = Ray.mk ⟨Float.fin ox, Float.fin oy, Float.fin oz⟩
      ⟨Float.fin dx, Float.fin dy, Float.fin dz⟩ tMax time)
    (ho : remap ax (ox, oy, oz) = (oa, ob, oc))
    (hd : remap ax (dx, dy, dz) = (da, db, dc))
    (hdc : dc ≠ 0) :
    (CreatePlaneShape o2w w2o rev (Float.fin a0) (Float.fin a1) (Float.fin b0)
      (Float.fin b1) (Float.fin c) ax).IntersectP r alpha =
    decide ((0 < (c - oc) / dc ∧ ¬ tMax ≤ Float.fin ((c - oc) / dc)) ∧
        (a0 ≤ oa + (c - oc) / dc * da ∧ oa + (c - oc) / dc * da ≤ a1) ∧
        (b0 ≤ ob + (c - oc) / dc * db ∧ ob + (c - oc) / dc * db ≤ b1)) := by
  have n1 : (0 < (c - oc) / dc ∧ ¬ tMax ≤ Float.fin ((c - oc) / dc)) ↔
      ¬ ((c - oc) / dc ≤ 0 ∨ tMax ≤ Float.fin ((c - oc) / dc)) := by
    simp only [not_or, not_le]
  have n2 : ((a0 ≤ oa + (c - oc) / dc * da ∧ oa + (c - oc) / dc * da ≤ a1) ∧
        (b0 ≤ ob + (c - oc) / dc * db ∧ ob + (c - oc) / dc * db ≤ b1)) ↔
      ¬ (oa + (c - oc) / dc * da < a0 ∨ a1 < oa + (c - oc) / dc * da ∨
        ob + (c - oc) / dc * db < b0 ∨ b1 < ob + (c - oc) / dc * db) := by
    simp only [not_or, not_lt, and_assoc]
  cases ax <;> simp only [remap, Prod.mk.injEq] at ho hd <;>
    obtain ⟨ho1, ho2, ho3⟩ := ho <;> obtain ⟨hd1, hd2, hd3⟩ := hd <;>
    subst ox oy oz dx dy dz <;>
    simp only [Plane.IntersectP, CreatePlaneShape, hray, Float.fin_sub, Float.fin_div _ _ hdc,
      Float.zero_eq, Float.fin_mul, Float.fin_add, Float.fin_le, Float.fin_lt, ge_iff_le,
      gt_iff_lt] <;>
    (by_cases h1 : (c - oc) / dc ≤ 0 ∨ tMax ≤ Float.fin ((c - oc) / dc)
     · rw [if_pos h1]
       exact (decide_eq_false (fun h => n1.mp h.1 h1)).symm
     · rw [if_neg h1]
       by_cases h2 : oa + (c - oc) / dc * da < a0 ∨ a1 < oa + (c - oc) / dc * da ∨
           ob + (c - oc) / dc * db < b0 ∨ b1 < ob + (c - oc) / dc * db
       · rw [if_pos h2]
         exact (decide_eq_false (fun h => n2.mp h.2 h2)).symm
       · rw [if_neg h2]
         exact (decide_eq_true ⟨n1.mpr h1, n2.mpr h2⟩).symm)

/-- A hit of finite distance has a non-zero depth direction component: when dc
is zero the parameter is NaN or an infinity. -/
theorem Plane.depth_direction_ne_zero_of_finite_hit
    (o2w w2o : Transform) (rev alpha : Bool) (ax : PlaneAxis) (a0 a1 b0 b1 : Float) (c : ℚ)
    (r : Ray) (ox oy oz dx dy dz : Float) (tMax time : Float) (oa ob da db : Float)
    (oc dc : ℚ)
    (hray : w2o.ray r = Ray.mk ⟨ox, oy, oz⟩ ⟨dx, dy, dz⟩ tMax time)
    (ho : remap ax (ox, oy, oz) = (oa, ob, Float.fin oc))
    (hd : remap ax (dx, dy, dz) = (da, db, Float.fin dc))
    (t : ℚ) (isect : SurfaceInteraction)
    (hI : (CreatePlaneShape o2w w2o rev a0 a1 b0 b1 (Float.fin c) ax).Intersect r alpha
      = some (Float.fin t, isect)) : dc ≠ 0 := by
  intro h0
  subst h0
  have ht : ∀ x : ℚ, Float.fin x / Float.fin 0 ≠ Float.fin t := by
    intro x
    by_cases hx : x = 0
    · subst hx
      rw [Float.fin_div_zero_self]
      exact fun h => Float.noConfusion h
    · rw [Float.fin_div_zero x hx]
      by_cases hp : 0 < x <;> simp [Float.signedInf, hp]
  cases ax <;> simp only [remap, Prod.mk.injEq] at ho hd <;>
    obtain ⟨ho1, ho2, ho3⟩ := ho <;> obtain ⟨hd1, hd2, hd3⟩ := hd <;>
    subst ox oy oz dx dy dz <;>
    simp only [Plane.Intersect, CreatePlaneShape, hray, Float.fin_sub] at hI <;>
    split_ifs at hI <;>
    simp only [Option.some.injEq, Prod.mk.injEq] at hI <;>
    exact ht _ hI.1

/-- A ray parallel to the plane whose origin is off the plane is rejected by
both queries: the parameter is an infinity.  Here the rectangle bounds and the
in-plane ray coordinates are arbitrary values, and tMax is not NaN. -/
theorem Plane.parallel_off_plane_rejected
    (o2w w2o : Transform) (rev alpha : Bool) (ax : PlaneAxis) (a0 a1 b0 b1 : Float) (c : ℚ)
    (r : Ray) (ox oy oz dx dy dz tMax time oa ob da db : Float) (oc : ℚ)
    (hray : w2o.ray r = Ray.mk ⟨ox, oy, oz⟩ ⟨dx, dy, dz⟩ tMax time)
    (ho : remap ax (ox, oy, oz) = (oa, ob, Float.fin oc))
    (hd : remap ax (dx, dy, dz) = (da, db, Float.fin 0))
    (hoc : oc ≠ c) (hT : tMax ≠ Float.nan) :
    (CreatePlaneShape o2w w2o rev a0 a1 b0 b1 (Float.fin c) ax).Intersect r alpha = none ∧
    (CreatePlaneShape o2w w2o rev a0 a1 b0 b1 (Float.fin c) ax).IntersectP r alpha = false := by
  have hne : c - oc ≠ 0 := sub_ne_zero.mpr (Ne.symm hoc)
  have hle := Float.le_pinf_of_ne_nan tMax hT
  cases ax <;> simp only [remap, Prod.mk.injEq] at ho hd <;>
    obtain ⟨rfl, rfl, rfl⟩ := ho <;> obtain ⟨rfl, rfl, rfl⟩ := hd <;>
    simp only [Plane.Intersect, Plane.IntersectP, CreatePlaneShape, hray, Float.fin_sub,
      Float.fin_div_zero _ hne, Float.zero_eq, ge_iff_le] <;>
    by_cases hpos : 0 < c - oc <;>
    simp [hpos, Float.signedInf, hle]

/-- The rectangle [-1,1]x[-1,1] at c = 5 in orientation XY is missed by the ray
from the origin along +x, which is parallel to it and off its plane. -/
theorem Plane.parallel_off_plane_rejected_example :
    (CreatePlaneShape Transform.identity Transform.identity false (Float.fin (-1))
        (Float.fin 1) (Float.fin (-1)) (Float.fin 1) (Float.fin 5) PlaneAxis.XY).Intersect
      (Ray.mk ⟨Float.fin 0, Float.fin 0, Float.fin 0⟩ ⟨Float.fin 1, Float.fin 0, Float.fin 0⟩
        Float.pinf (Float.fin 0)) false = none ∧
    (CreatePlaneShape Transform.identity Transform.identity false (Float.fin (-1))
        (Float.fin 1) (Float.fin (-1)) (Float.fin 1) (Float.fin 5) PlaneAxis.XY).IntersectP
      (Ray.mk ⟨Float.fin 0, Float.fin 0, Float.fin 0⟩ ⟨Float.fin 1, Float.fin 0, Float.fin 0⟩
        Float.pinf (Float.fin 0)) false = false :=
  Plane.parallel_off_plane_rejected Transform.identity Transform.identity false false
    PlaneAxis.XY (Float.fin (-1)) (Float.fin 1) (Float.fin (-1)) (Float.fin 1) 5
    (Ray.mk ⟨Float.fin 0, Float.fin 0, Float.fin 0⟩ ⟨Float.fin 1, Float.fin 0, Float.fin 0⟩
      Float.pinf (Float.fin 0))
    (Float.fin 0) (Float.fin 0) (Float.fin 0) (Float.fin 1) (Float.fin 0) (Float.fin 0)
    Float.pinf (Float.fin 0) (Float.fin 0) (Float.fin 0) (Float.fin 1) (Float.fin 0) 0
    rfl rfl rfl (by norm_num) (by decide)

/-! ## C1 and C2: the acceptance criteria -/

/-- C1. Plane::Intersect acceptance criterion: for every orientation, every
rectangle and every object-space ray of finite coordinates whose depth-axis
direction component dc is non-zero, with tMax a number or an infinity,
Intersect returns true exactly when t = (c - oc)/dc satisfies 0 < t < tMax,
a = oa + t*da satisfies a0 < a < a1 and b = ob + t*db satisfies b0 < b < b1;
and whenever it returns true the reported hit distance tHit is that t. -/
theorem Plane.Intersect_accepts_iff
    (o2w w2o : Transform) (rev alpha : Bool) (ax : PlaneAxis) (a0 a1 b0 b1 c : ℚ)
    (r : Ray) (ox oy oz dx dy dz : ℚ) (tMax time : Float) (oa ob oc da db dc : ℚ)
    (hray : w2o.ray r = Ray.mk ⟨Float.fin ox, Float.fin oy, Float.fin oz⟩
      ⟨Float.fin dx, Float.fin dy, Float.fin dz⟩ tMax time)
    (ho : remap ax (ox, oy, oz) = (oa, ob, oc))
    (hd : remap ax (dx, dy, dz) = (da, db, dc))
    (hdc : dc ≠ 0) (hT : tMax ≠ Float.nan) :
    let P := CreatePlaneShape o2w w2o rev (Float.fin a0) (Float.fin a1) (Float.fin b0)
      (Float.fin b1) (Float.fin c) ax
    let t := (c - oc) / dc
    ((P.Intersect r alpha).isSome = true ↔
      (0 < t ∧ Float.fin t < tMax) ∧ (a0 < oa + t * da ∧ oa + t * da < a1) ∧
        (b0 < ob + t * db ∧ ob + t * db < b1)) ∧
    ∀ tHit isect, P.Intersect r alpha = some (tHit, isect) → tHit = Float.fin t := by
  intro P t
  have h := Plane.Intersect_finite o2w w2o rev alpha ax a0 a1 b0 b1 c r ox oy oz dx dy dz
    tMax time oa ob oc da db dc hray ho hd hdc
  simp only [Float.le_fin_iff_not_lt tMax _ hT, not_not] at h
  constructor
  · show (Plane.Intersect _ r alpha).isSome = true ↔ _
    rw [h]
    split_ifs with hc
    · exact ⟨fun _ => hc, fun _ => rfl⟩
    · exact ⟨fun hf => absurd hf (by simp), fun hf => absurd hf hc⟩
  · intro tHit isect hI
    have hI2 : Plane.Intersect _ r alpha = some (tHit, isect) := hI
    rw [h] at hI2
    split_ifs at hI2
    simp only [Option.some.injEq, Prod.mk.injEq] at hI2
    exact hI2.1.symm

/-- Witness of C1: the rectangle [-1,1]x[-1,1] at c = 5 in orientation XY, hit by
the ray from the origin along +z with unbounded tMax, at distance 5. -/
theorem Plane.Intersect_accepts_iff_witness :
    ∃ isect, (CreatePlaneShape Transform.identity Transform.identity false (Float.fin (-1))
        (Float.fin 1) (Float.fin (-1)) (Float.fin 1) (Float.fin 5) PlaneAxis.XY).Intersect
      (Ray.mk ⟨Float.fin 0, Float.fin 0, Float.fin 0⟩ ⟨Float.fin 0, Float.fin 0, Float.fin 1⟩
        Float.pinf (Float.fin 0)) false = some (Float.fin 5, isect) := by
  have h := Plane.Intersect_accepts_iff Transform.identity Transform.identity false false
    PlaneAxis.XY (-1) 1 (-1) 1 5
    (Ray.mk ⟨Float.fin 0, Float.fin 0, Float.fin 0⟩ ⟨Float.fin 0, Float.fin 0, Float.fin 1⟩
      Float.pinf (Float.fin 0))
    0 0 0 0 0 1 Float.pinf (Float.fin 0) 0 0 0 0 0 1 rfl rfl rfl (by norm_num) (by decide)
  have hs := h.1.mpr (by norm_num)
  obtain ⟨⟨tHit, isect⟩, hi⟩ := Option.isSome_iff_exists.mp hs
  have ht := h.2 tHit isect hi
  refine ⟨isect, ?_⟩
  rw [hi, ht]
  norm_num

/-- The first scenario of C1, evaluated: the hit is reported at distance 5. -/
theorem Plane.Intersect_scenario_hit :
    ((CreatePlaneShape Transform.identity Transform.identity false (Float.fin (-1))
        (Float.fin 1) (Float.fin (-1)) (Float.fin 1) (Float.fin 5) PlaneAxis.XY).Intersect
      (Ray.mk ⟨Float.fin 0, Float.fin 0, Float.fin 0⟩ ⟨Float.fin 0, Float.fin 0, Float.fin 1⟩
        Float.pinf (Float.fin 0)) false).map Prod.fst = some (Float.fin 5) := by
  simp [Plane.Intersect, CreatePlaneShape, Transform.identity, Float.zero_eq, Float.fin_div]

/-- The second scenario of C1, evaluated: the same rectangle is not hit by the
ray from the origin along -z. -/
theorem Plane.Intersect_scenario_miss :
    (CreatePlaneShape Transform.identity Transform.identity false (Float.fin (-1))
        (Float.fin 1) (Float.fin (-1)) (Float.fin 1) (Float.fin 5) PlaneAxis.XY).Intersect
      (Ray.mk ⟨Float.fin 0, Float.fin 0, Float.fin 0⟩ ⟨Float.fin 0, Float.fin 0, Float.fin (-1)⟩
        Float.pinf (Float.fin 0)) false = none := by
  simp [Plane.Intersect, CreatePlaneShape, Transform.identity, Float.zero_eq, Float.fin_div]

/-- C2. Plane::IntersectP acceptance criterion: for every orientation, every
rectangle and every object-space ray of finite coordinates whose depth-axis
direction component dc is non-zero, with tMax a number or an infinity,
IntersectP returns true exactly when t = (c - oc)/dc satisfies 0 < t < tMax and
the in-plane coordinates satisfy the closed bounds a0 <= oa + t*da <= a1 and
b0 <= ob + t*db <= b1. -/
theorem Plane.IntersectP_accepts_iff
    (o2w w2o : Transform) (rev alpha : Bool) (ax : PlaneAxis) (a0 a1 b0 b1 c : ℚ)
    (r : Ray) (ox oy oz dx dy dz : ℚ) (tMax time : Float) (oa ob oc da db dc : ℚ)
    (hray : w2o.ray r = Ray.mk ⟨Float.fin ox, Float.fin oy, Float.fin oz⟩
      ⟨Float.fin dx, Float.fin dy, Float.fin dz⟩ tMax time)
    (ho : remap ax (ox, oy, oz) = (oa, ob, oc))
    (hd : remap ax (dx, dy, dz) = (da, db, dc))
    (hdc : dc ≠ 0) (hT : tMax ≠ Float.nan) :
    let P := CreatePlaneShape o2w w2o rev (Float.fin a0) (Float.fin a1) (Float.fin b0)
      (Float.fin b1) (Float.fin c) ax
    let t := (c - oc) / dc
    (P.IntersectP r alpha = true ↔
      (0 < t ∧ Float.fin t < tMax) ∧ (a0 ≤ oa + t * da ∧ oa + t * da ≤ a1) ∧
        (b0 ≤ ob + t * db ∧ ob + t * db ≤ b1)) := by
  intro P t
  have h := Plane.IntersectP_finite o2w w2o rev alpha ax a0 a1 b0 b1 c r ox oy oz dx dy dz
    tMax time oa ob oc da db dc hray ho hd hdc
  simp only [Float.le_fin_iff_not_lt tMax _ hT, not_not] at h
  show Plane.IntersectP _ r alpha = true ↔ _
  rw [h, decide_eq_true_iff]

/-- Witness of C2: the rectangle [-1,1]x[-1,1] at c = 5 in orientation XZ is hit
on its edge a = a1 by the ray from (1,0,0) along +y, with tMax = 10. -/
theorem Plane.IntersectP_accepts_iff_witness :
    (CreatePlaneShape Transform.identity Transform.identity false (Float.fin (-1))
        (Float.fin 1) (Float.fin (-1)) (Float.fin 1) (Float.fin 5) PlaneAxis.XZ).IntersectP
      (Ray.mk ⟨Float.fin 1, Float.fin 0, Float.fin 0⟩ ⟨Float.fin 0, Float.fin 1, Float.fin 0⟩
        (Float.fin 10) (Float.fin 0)) true = true :=
  (Plane.IntersectP_accepts_iff Transform.identity Transform.identity false true
    PlaneAxis.XZ (-1) 1 (-1) 1 5
    (Ray.mk ⟨Float.fin 1, Float.fin 0, Float.fin 0⟩ ⟨Float.fin 0, Float.fin 1, Float.fin 0⟩
      (Float.fin 10) (Float.fin 0))
    1 0 0 0 1 0 (Float.fin 10) (Float.fin 0) 1 0 0 0 0 1 rfl rfl rfl (by norm_num)
    (by decide)).mpr (by norm_num)

/-! ## C3 and C4: rays parallel to the plane -/

/-- C4. A NaN ray parameter is accepted, not rejected: for every orientation,
every rectangle (bounds of any value) with a finite c, every tMax and every
object-space ray whose origin has depth coordinate c and whose direction has
depth component zero, the parameter (c - oc)/dc is NaN, every comparison on it
is false, and so Intersect returns true with hit distance NaN and IntersectP
returns true. -/
theorem Plane.nan_parameter_accepted
    (o2w w2o : Transform) (rev alpha : Bool) (ax : PlaneAxis) (a0 a1 b0 b1 : Float) (c : ℚ)
    (r : Ray) (ox oy oz dx dy dz tMax time oa ob da db : Float)
    (hray : w2o.ray r = Ray.mk ⟨ox, oy, oz⟩ ⟨dx, dy, dz⟩ tMax time)
    (ho : remap ax (ox, oy, oz) = (oa, ob, Float.fin c))
    (hd : remap ax (dx, dy, dz) = (da, db, Float.fin 0)) :
    (∃ isect, (CreatePlaneShape o2w w2o rev a0 a1 b0 b1 (Float.fin c) ax).Intersect r alpha
      = some (Float.nan, isect)) ∧
    (CreatePlaneShape o2w w2o rev a0 a1 b0 b1 (Float.fin c) ax).IntersectP r alpha = true := by
  cases ax <;> simp only [remap, Prod.mk.injEq] at ho hd <;>
    obtain ⟨rfl, rfl, rfl⟩ := ho <;> obtain ⟨rfl, rfl, rfl⟩ := hd <;>
    simp [Plane.Intersect, Plane.IntersectP, CreatePlaneShape, hray, Float.fin_div_zero_self]

/-- Witness of C4: the rectangle [-1,1]x[-1,1] at c = 5 in orientation YZ and the
ray from (5,0,0) along +y, which lies in the plane x = 5. -/
theorem Plane.nan_parameter_accepted_witness :
    (∃ isect, (CreatePlaneShape Transform.identity Transform.identity false (Float.fin (-1))
        (Float.fin 1) (Float.fin (-1)) (Float.fin 1) (Float.fin 5) PlaneAxis.YZ).Intersect
      (Ray.mk ⟨Float.fin 5, Float.fin 0, Float.fin 0⟩ ⟨Float.fin 0, Float.fin 1, Float.fin 0⟩
        Float.pinf (Float.fin 0)) false = some (Float.nan, isect)) ∧
    (CreatePlaneShape Transform.identity Transform.identity false (Float.fin (-1))
        (Float.fin 1) (Float.fin (-1)) (Float.fin 1) (Float.fin 5) PlaneAxis.YZ).IntersectP
      (Ray.mk ⟨Float.fin 5, Float.fin 0, Float.fin 0⟩ ⟨Float.fin 0, Float.fin 1, Float.fin 0⟩
        Float.pinf (Float.fin 0)) false = true :=
  Plane.nan_parameter_accepted Transform.identity Transform.identity false false PlaneAxis.YZ
    (Float.fin (-1)) (Float.fin 1) (Float.fin (-1)) (Float.fin 1) 5
    (Ray.mk ⟨Float.fin 5, Float.fin 0, Float.fin 0⟩ ⟨Float.fin 0, Float.fin 1, Float.fin 0⟩
      Float.pinf (Float.fin 0))
    (Float.fin 5) (Float.fin 0) (Float.fin 0) (Float.fin 0) (Float.fin 1) (Float.fin 0)
    Float.pinf (Float.fin 0) (Float.fin 0) (Float.fin 0) (Float.fin 1) (Float.fin 0)
    rfl rfl rfl

/-- C3, at the failing input: the rectangle [-1,1]x[-1,1] at c = 5 in orientation
XY and the ray from (0,0,5) along +x with unbounded tMax.  The ray is parallel
to the plane (its depth direction component is zero) and its origin lies in
the plane; Intersect returns true, with hit distance NaN, and IntersectP
returns true. -/
theorem Plane.parallel_in_plane_hit :
    ((CreatePlaneShape Transform.identity Transform.identity false (Float.fin (-1))
        (Float.fin 1) (Float.fin (-1)) (Float.fin 1) (Float.fin 5) PlaneAxis.XY).Intersect
      (Ray.mk ⟨Float.fin 0, Float.fin 0, Float.fin 5⟩ ⟨Float.fin 1, Float.fin 0, Float.fin 0⟩
        Float.pinf (Float.fin 0)) false).map Prod.fst = some Float.nan ∧
    (CreatePlaneShape Transform.identity Transform.identity false (Float.fin (-1))
        (Float.fin 1) (Float.fin (-1)) (Float.fin 1) (Float.fin 5) PlaneAxis.XY).IntersectP
      (Ray.mk ⟨Float.fin 0, Float.fin 0, Float.fin 5⟩ ⟨Float.fin 1, Float.fin 0, Float.fin 0⟩
        Float.pinf (Float.fin 0)) false = true := by
  simp [Plane.Intersect, Plane.IntersectP, CreatePlaneShape, Transform.identity,
    Float.fin_div_zero_self]

/-! ## C5: hits on the edge of the rectangle -/

/-- C5. Edge hits and the Intersect/IntersectP asymmetry: for every orientation,
every rectangle with a0 <= a1 and b0 <= b1 and every object-space ray of finite
coordinates with 0 < t < tMax, if the in-plane hit coordinate a equals a0 or
a1, or b equals b0 or b1, then Intersect returns false; and if moreover the
other in-plane coordinate lies within its closed interval, IntersectP returns
true. -/
theorem Plane.edge_hit_asymmetry
    (o2w w2o : Transform) (rev alpha : Bool) (ax : PlaneAxis) (a0 a1 b0 b1 c : ℚ)
    (r : Ray) (ox oy oz dx dy dz : ℚ) (tMax time : Float) (oa ob oc da db dc : ℚ)
    (hray : w2o.ray r = Ray.mk ⟨Float.fin ox, Float.fin oy, Float.fin oz⟩
      ⟨Float.fin dx, Float.fin dy, Float.fin dz⟩ tMax time)
    (ho : remap ax (ox, oy, oz) = (oa, ob, oc))
    (hd : remap ax (dx, dy, dz) = (da, db, dc))
    (hdc : dc ≠ 0) (ha : a0 ≤ a1) (hb : b0 ≤ b1)
    (ht0 : 0 < (c - oc) / dc) (ht1 : Float.fin ((c - oc) / dc) < tMax)
    (hedge : oa + (c - oc) / dc * da = a0 ∨ oa + (c - oc) / dc * da = a1 ∨
      ob + (c - oc) / dc * db = b0 ∨ ob + (c - oc) / dc * db = b1) :
    let P := CreatePlaneShape o2w w2o rev (Float.fin a0) (Float.fin a1) (Float.fin b0)
      (Float.fin b1) (Float.fin c) ax
    let a := oa + (c - oc) / dc * da
    let b := ob + (c - oc) / dc * db
    P.Intersect r alpha = none ∧
    ((((a = a0 ∨ a = a1) ∧ b0 ≤ b ∧ b ≤ b1) ∨ ((b = b0 ∨ b = b1) ∧ a0 ≤ a ∧ a ≤ a1)) →
      P.IntersectP r alpha = true) := by
  intro P a b
  have hT : tMax ≠ Float.nan := by
    intro h
    rw [h] at ht1
    exact Float.not_lt_nan _ ht1
  have ht2 : ¬ tMax ≤ Float.fin ((c - oc) / dc) := by
    rw [Float.le_fin_iff_not_lt tMax _ hT, not_not]
    exact ht1
  have hI := Plane.Intersect_finite o2w w2o rev alpha ax a0 a1 b0 b1 c r ox oy oz dx dy dz
    tMax time oa ob oc da db dc hray ho hd hdc
  have hP := Plane.IntersectP_finite o2w w2o rev alpha ax a0 a1 b0 b1 c r ox oy oz dx dy dz
    tMax time oa ob oc da db dc hray ho hd hdc
  constructor
  · show Plane.Intersect _ r alpha = none
    rw [hI, if_neg]
    intro h
    rcases hedge with h1 | h1 | h1 | h1
    · exact absurd h1 (ne_of_gt h.2.1.1)
    · exact absurd h1 (ne_of_lt h.2.1.2)
    · exact absurd h1 (ne_of_gt h.2.2.1)
    · exact absurd h1 (ne_of_lt h.2.2.2)
  · intro h
    show Plane.IntersectP _ r alpha = true
    rw [hP, decide_eq_true_iff]
    refine ⟨⟨ht0, ht2⟩, ?_⟩
    rcases h with ⟨h1 | h1, h2, h3⟩ | ⟨h1 | h1, h2, h3⟩
    · exact ⟨⟨le_of_eq h1.symm, le_of_eq_of_le h1 ha⟩, h2, h3⟩
    · exact ⟨⟨le_of_le_of_eq ha h1.symm, le_of_eq h1⟩, h2, h3⟩
    · exact ⟨⟨h2, h3⟩, le_of_eq h1.symm, le_of_eq_of_le h1 hb⟩
    · exact ⟨⟨h2, h3⟩, le_of_le_of_eq hb h1.symm, le_of_eq h1⟩

/-- Witness of C5: the rectangle [-1,1]x[-1,1] at c = 5 in orientation XY and the
ray from (1,0,0) along +z with tMax = 10, which meets the plane on the edge
a = a1 at t = 5: Intersect reports no hit and IntersectP reports a hit. -/
theorem Plane.edge_hit_asymmetry_witness :
    (CreatePlaneShape Transform.identity Transform.identity false (Float.fin (-1))
        (Float.fin 1) (Float.fin (-1)) (Float.fin 1) (Float.fin 5) PlaneAxis.XY).Intersect
      (Ray.mk ⟨Float.fin 1, Float.fin 0, Float.fin 0⟩ ⟨Float.fin 0, Float.fin 0, Float.fin 1⟩
        (Float.fin 10) (Float.fin 0)) false = none ∧
    (CreatePlaneShape Transform.identity Transform.identity false (Float.fin (-1))
        (Float.fin 1) (Float.fin (-1)) (Float.fin 1) (Float.fin 5) PlaneAxis.XY).IntersectP
      (Ray.mk ⟨Float.fin 1, Float.fin 0, Float.fin 0⟩ ⟨Float.fin 0, Float.fin 0, Float.fin 1⟩
        (Float.fin 10) (Float.fin 0)) false = true := by
  have h := Plane.edge_hit_asymmetry Transform.identity Transform.identity false false
    PlaneAxis.XY (-1) 1 (-1) 1 5
    (Ray.mk ⟨Float.fin 1, Float.fin 0, Float.fin 0⟩ ⟨Float.fin 0, Float.fin 0, Float.fin 1⟩
      (Float.fin 10) (Float.fin 0))
    1 0 0 0 0 1 (Float.fin 10) (Float.fin 0) 1 0 0 0 0 1 rfl rfl rfl (by norm_num)
    (by norm_num) (by norm_num) (by norm_num) (by norm_num) (by norm_num)
  exact ⟨h.1, h.2 (by norm_num)⟩

/-! ## C6, C7 and C8: the hit record -/

/-- The remap commutes with a coordinate-wise map. -/
theorem remap_map {α β : Type} (f : α → β) (ax : PlaneAxis) (x y z a b c : α)
    (h : remap ax (x, y, z) = (a, b, c)) : remap ax (f x, f y, f z) = (f a, f b, f c) := by
  cases ax <;> simp only [remap, Prod.mk.injEq] at h ⊢ <;>
    obtain ⟨rfl, rfl, rfl⟩ := h <;> exact ⟨rfl, rfl, rfl⟩

/-- C6. Surface parametrization of a hit: for every orientation, rectangle and
object-space ray of finite coordinates, whenever Intersect returns true with
hit distance t, the hit record is the ObjectToWorld image of a record whose
(u,v) are u = (a - a0)/(a1 - a0) and v = (b - b0)/(b1 - b0) for the in-plane hit
coordinates a = oa + t*da and b = ob + t*db, and these are the (u,v) of the hit
record itself when ObjectToWorld keeps the parametrization of a record; both
lie in [0,1], and they invert to the hit coordinates: a = a0 + u*(a1 - a0) and
b = b0 + v*(b1 - b0). -/
theorem Plane.Intersect_uv
    (o2w w2o : Transform) (rev alpha : Bool) (ax : PlaneAxis) (a0 a1 b0 b1 c : ℚ)
    (r : Ray) (ox oy oz dx dy dz : ℚ) (tMax time : Float) (oa ob oc da db dc : ℚ)
    (hray : w2o.ray r = Ray.mk ⟨Float.fin ox, Float.fin oy, Float.fin oz⟩
      ⟨Float.fin dx, Float.fin dy, Float.fin dz⟩ tMax time)
    (ho : remap ax (ox, oy, oz) = (oa, ob, oc))
    (hd : remap ax (dx, dy, dz) = (da, db, dc))
    (t : ℚ) (isect : SurfaceInteraction)
    (hI : (CreatePlaneShape o2w w2o rev (Float.fin a0) (Float.fin a1) (Float.fin b0)
      (Float.fin b1) (Float.fin c) ax).Intersect r alpha = some (Float.fin t, isect)) :
    let a := oa + t * da
    let b := ob + t * db
    let u := (a - a0) / (a1 - a0)
    let v := (b - b0) / (b1 - b0)
    (∃ s, isect = o2w.si s ∧ s.uv = Point2f.mk (Float.fin u) (Float.fin v)) ∧
    ((∀ s, (o2w.si s).uv = s.uv) → isect.uv = Point2f.mk (Float.fin u) (Float.fin v)) ∧
    (0 ≤ u ∧ u ≤ 1) ∧ (0 ≤ v ∧ v ≤ 1) ∧
    a = a0 + u * (a1 - a0) ∧ b = b0 + v * (b1 - b0) := by
  intro a b u v
  have hdc : dc ≠ 0 := Plane.depth_direction_ne_zero_of_finite_hit o2w w2o rev alpha ax
    (Float.fin a0) (Float.fin a1) (Float.fin b0) (Float.fin b1) c r (Float.fin ox) (Float.fin oy)
    (Float.fin oz) (Float.fin dx) (Float.fin dy) (Float.fin dz) tMax time (Float.fin oa)
    (Float.fin ob) (Float.fin da) (Float.fin db) oc dc hray
    (remap_map Float.fin ax ox oy oz oa ob oc ho) (remap_map Float.fin ax dx dy dz da db dc hd)
    t isect hI
  rw [Plane.Intersect_finite o2w w2o rev alpha ax a0 a1 b0 b1 c r ox oy oz dx dy dz
    tMax time oa ob oc da db dc hray ho hd hdc] at hI
  split_ifs at hI with hc
  simp only [Option.some.injEq, Prod.mk.injEq, Float.fin.injEq] at hI
  obtain ⟨ht, hs⟩ := hI
  subst ht
  have hA : 0 < a1 - a0 := sub_pos.mpr (lt_trans hc.2.1.1 hc.2.1.2)
  have hB : 0 < b1 - b0 := sub_pos.mpr (lt_trans hc.2.2.1 hc.2.2.2)
  refine ⟨⟨_, hs.symm, rfl⟩, ?_, ⟨?_, ?_⟩, ⟨?_, ?_⟩, ?_, ?_⟩
  · intro huv
    rw [← hs, huv]
  · exact div_nonneg (sub_nonneg.mpr (le_of_lt hc.2.1.1)) (le_of_lt hA)
  · exact (div_le_one hA).mpr (sub_le_sub_right (le_of_lt hc.2.1.2) a0)
  · exact div_nonneg (sub_nonneg.mpr (le_of_lt hc.2.2.1)) (le_of_lt hB)
  · exact (div_le_one hB).mpr (sub_le_sub_right (le_of_lt hc.2.2.2) b0)
  · show a = a0 + (a - a0) / (a1 - a0) * (a1 - a0)
    rw [div_mul_cancel₀ _ (ne_of_gt hA)]
    ring
  · show b = b0 + (b - b0) / (b1 - b0) * (b1 - b0)
    rw [div_mul_cancel₀ _ (ne_of_gt hB)]
    ring

/-- The rectangle [-1,1]x[-1,1] at c = 5 in orientation XY under the identity
transform is hit at distance 5 by the ray from the origin along +z. -/
theorem Plane.Intersect_scenario_record :
    ∃ isect, (CreatePlaneShape Transform.identity Transform.identity false (Float.fin (-1))
        (Float.fin 1) (Float.fin (-1)) (Float.fin 1) (Float.fin 5) PlaneAxis.XY).Intersect
      (Ray.mk ⟨Float.fin 0, Float.fin 0, Float.fin 0⟩ ⟨Float.fin 0, Float.fin 0, Float.fin 1⟩
        Float.pinf (Float.fin 0)) false = some (Float.fin 5, isect) := by
  simp [Plane.Intersect, CreatePlaneShape, Transform.identity, Float.zero_eq, Float.fin_div]

/-- Witness of C6: in the scenario of the specification the hit record carries
(u,v) = (1/2, 1/2). -/
theorem Plane.Intersect_uv_witness :
    ∃ isect, (CreatePlaneShape Transform.identity Transform.identity false (Float.fin (-1))
        (Float.fin 1) (Float.fin (-1)) (Float.fin 1) (Float.fin 5) PlaneAxis.XY).Intersect
      (Ray.mk ⟨Float.fin 0, Float.fin 0, Float.fin 0⟩ ⟨Float.fin 0, Float.fin 0, Float.fin 1⟩
        Float.pinf (Float.fin 0)) false = some (Float.fin 5, isect) ∧
      isect.uv = Point2f.mk (Float.fin (1 / 2)) (Float.fin (1 / 2)) := by
  obtain ⟨isect, hI⟩ := Plane.Intersect_scenario_record
  have h := Plane.Intersect_uv Transform.identity Transform.identity false false
    PlaneAxis.XY (-1) 1 (-1) 1 5
    (Ray.mk ⟨Float.fin 0, Float.fin 0, Float.fin 0⟩ ⟨Float.fin 0, Float.fin 0, Float.fin 1⟩
      Float.pinf (Float.fin 0))
    0 0 0 0 0 1 Float.pinf (Float.fin 0) 0 0 0 0 0 1 rfl rfl rfl 5 isect hI
  refine ⟨isect, hI, ?_⟩
  rw [h.2.1 (fun _ => rfl)]
  norm_num

/-- An affine map sends the ray point o + t*d to the image of o offset by t
times the image of d. -/
theorem Affine3.point_ray (B : Affine3) (o d : ℚ × ℚ × ℚ) (t : ℚ) :
    ((B.point o).1 + (B.vector d).1 * t, (B.point o).2.1 + (B.vector d).2.1 * t,
      (B.point o).2.2 + (B.vector d).2.2 * t) =
    B.point (o.1 + d.1 * t, o.2.1 + d.2.1 * t, o.2.2 + d.2.2 * t) := by
  simp only [Affine3.point, Affine3.vector, Prod.mk.injEq]
  refine ⟨?_, ?_, ?_⟩ <;> ring

/-- The identity transform is affine, with the identity map. -/
theorem Transform.identity_actsAs : Transform.identity.ActsAs Affine3.identity := by
  constructor
  · intro o d tMax time
    simp [Transform.identity, Affine3.identity, Affine3.point, Affine3.vector, Point3f.ofRat,
      Vector3f.ofRat]
  · intro s p hp
    simp [Transform.identity, Affine3.identity, Affine3.point, Point3f.ofRat, hp]

/-- A translation transform is affine, with the translation map. -/
theorem Transform.translation_actsAs (x y z : ℚ) :
    (Transform.translation x y z).ActsAs (Affine3.translate x y z) := by
  constructor
  · intro o d tMax time
    simp [Transform.translation, Affine3.translate, Affine3.point, Affine3.vector,
      Point3f.ofRat, Vector3f.ofRat, Point3f.addVec]
  · intro s p hp
    simp [Transform.translation, Affine3.translate, Affine3.point, Point3f.ofRat,
      Vector3f.ofRat, Point3f.addVec, hp]

/-- C7. World-space hit point: for every pair of affine transforms ObjectToWorld
(map A) and WorldToObject (map B) with A after B the identity, every
orientation and rectangle and every world-space ray of finite coordinates,
whenever Intersect returns true with hit distance t the position in the
returned hit record is the original ray evaluated at t, r.o + t*r.d. -/
theorem Plane.Intersect_world_point
    (o2w w2o : Transform) (A B : Affine3) (hO : o2w.ActsAs A) (hW : w2o.ActsAs B)
    (hinv : ∀ p, A.point (B.point p) = p)
    (rev alpha : Bool) (ax : PlaneAxis) (a0 a1 b0 b1 c : ℚ)
    (o d : ℚ × ℚ × ℚ) (tMax time : Float) (t : ℚ) (isect : SurfaceInteraction)
    (hI : (CreatePlaneShape o2w w2o rev (Float.fin a0) (Float.fin a1) (Float.fin b0)
        (Float.fin b1) (Float.fin c) ax).Intersect
      (Ray.mk (Point3f.ofRat o) (Vector3f.ofRat d) tMax time) alpha = some (Float.fin t, isect)) :
    isect.p = (Ray.mk (Point3f.ofRat o) (Vector3f.ofRat d) tMax time).at (Float.fin t) := by
  have hray := hW.ray o d tMax time
  have ho : remap ax ((B.point o).1, (B.point o).2.1, (B.point o).2.2) =
      ((remap ax (B.point o)).1, (remap ax (B.point o)).2.1, (remap ax (B.point o)).2.2) := rfl
  have hd : remap ax ((B.vector d).1, (B.vector d).2.1, (B.vector d).2.2) =
      ((remap ax (B.vector d)).1, (remap ax (B.vector d)).2.1, (remap ax (B.vector d)).2.2) :=
    rfl
  have hdc := Plane.depth_direction_ne_zero_of_finite_hit o2w w2o rev alpha ax
    (Float.fin a0) (Float.fin a1) (Float.fin b0) (Float.fin b1) c _ _ _ _ _ _ _ tMax time
    _ _ _ _ _ _ hray (remap_map Float.fin ax _ _ _ _ _ _ ho)
    (remap_map Float.fin ax _ _ _ _ _ _ hd) t isect hI
  rw [Plane.Intersect_finite o2w w2o rev alpha ax a0 a1 b0 b1 c _ _ _ _ _ _ _
    tMax time _ _ _ _ _ _ hray ho hd hdc] at hI
  split_ifs at hI with hc
  simp only [Option.some.injEq, Prod.mk.injEq, Float.fin.injEq] at hI
  obtain ⟨ht, hs⟩ := hI
  rw [← hs, ht]
  rw [hO.hitPoint _ ((B.point o).1 + (B.vector d).1 * t, (B.point o).2.1 + (B.vector d).2.1 * t,
    (B.point o).2.2 + (B.vector d).2.2 * t) rfl, Affine3.point_ray, hinv]
  simp [Ray.at, Point3f.addVec, Vector3f.scale, Point3f.ofRat, Vector3f.ofRat]

/-- The rectangle [-1,1]x[-1,1] at c = 5 in orientation XY, moved by (1,2,3), is
hit at distance 8 by the world ray from (1,2,0) along +z. -/
theorem Plane.Intersect_translated_record :
    ∃ isect, (CreatePlaneShape (Transform.translation 1 2 3) (Transform.translation (-1) (-2) (-3))
        false (Float.fin (-1)) (Float.fin 1) (Float.fin (-1)) (Float.fin 1) (Float.fin 5)
        PlaneAxis.XY).Intersect
      (Ray.mk (Point3f.ofRat (1, 2, 0)) (Vector3f.ofRat (0, 0, 1)) Float.pinf (Float.fin 0)) false
        = some (Float.fin 8, isect) := by
  simp [Plane.Intersect, CreatePlaneShape, Transform.translation, Float.zero_eq, Float.fin_div,
    Point3f.ofRat, Vector3f.ofRat, Point3f.addVec]
  norm_num

/-- Witness of C7: under the identity transform the hit of the scenario of the
specification is placed at the world point (0,0,5); and the same rectangle
moved by (1,2,3), hit by the world ray from (1,2,0) along +z at distance 8,
gives the world point (1,2,8). -/
theorem Plane.Intersect_world_point_witness :
    (∃ isect, (CreatePlaneShape Transform.identity Transform.identity false (Float.fin (-1))
        (Float.fin 1) (Float.fin (-1)) (Float.fin 1) (Float.fin 5) PlaneAxis.XY).Intersect
      (Ray.mk ⟨Float.fin 0, Float.fin 0, Float.fin 0⟩ ⟨Float.fin 0, Float.fin 0, Float.fin 1⟩
        Float.pinf (Float.fin 0)) false = some (Float.fin 5, isect) ∧
      isect.p = Point3f.mk (Float.fin 0) (Float.fin 0) (Float.fin 5)) ∧
    (∃ isect, (CreatePlaneShape (Transform.translation 1 2 3) (Transform.translation (-1) (-2) (-3))
        false (Float.fin (-1)) (Float.fin 1) (Float.fin (-1)) (Float.fin 1) (Float.fin 5)
        PlaneAxis.XY).Intersect
      (Ray.mk (Point3f.ofRat (1, 2, 0)) (Vector3f.ofRat (0, 0, 1)) Float.pinf (Float.fin 0)) false
        = some (Float.fin 8, isect) ∧
      isect.p = Point3f.mk (Float.fin 1) (Float.fin 2) (Float.fin 8)) := by
  constructor
  · obtain ⟨isect, hI⟩ := Plane.Intersect_scenario_record
    have h := Plane.Intersect_world_point Transform.identity Transform.identity
      Affine3.identity Affine3.identity Transform.identity_actsAs Transform.identity_actsAs
      (by intro p; simp [Affine3.identity, Affine3.point])
      false false PlaneAxis.XY (-1) 1 (-1) 1 5 (0, 0, 0) (0, 0, 1) Float.pinf (Float.fin 0) 5
      isect hI
    refine ⟨isect, hI, ?_⟩
    rw [h]
    simp [Ray.at, Point3f.addVec, Vector3f.scale, Point3f.ofRat, Vector3f.ofRat]
  · obtain ⟨isect, hI⟩ := Plane.Intersect_translated_record
    have h := Plane.Intersect_world_point (Transform.translation 1 2 3)
      (Transform.translation (-1) (-2) (-3)) (Affine3.translate 1 2 3)
      (Affine3.translate (-1) (-2) (-3)) (Transform.translation_actsAs 1 2 3)
      (Transform.translation_actsAs (-1) (-2) (-3))
      (by intro p; simp [Affine3.translate, Affine3.point])
      false false PlaneAxis.XY (-1) 1 (-1) 1 5 (1, 2, 0) (0, 0, 1) Float.pinf (Float.fin 0) 8
      isect hI
    refine ⟨isect, hI, ?_⟩
    rw [h]
    simp [Ray.at, Point3f.addVec, Vector3f.scale, Point3f.ofRat, Vector3f.ofRat]

/-- The tangent frame given to the hit record, in every orientation: whenever
Intersect returns true, the hit record is the ObjectToWorld image of a record
with dp/du = (1,0,0), dp/dv = (0,1,0) and both normal derivatives zero. -/
theorem Plane.Intersect_tangent_frame (P : Plane) (r : Ray) (alpha : Bool) (tHit : Float)
    (isect : SurfaceInteraction) (hI : P.Intersect r alpha = some (tHit, isect)) :
    ∃ s, isect = P.ObjectToWorld.si s ∧ s.dpdu = Vector3f.mk 1 0 0 ∧ s.dpdv = Vector3f.mk 0 1 0 ∧
      s.dndu = Normal3f.mk 0 0 0 ∧ s.dndv = Normal3f.mk 0 0 0 := by
  simp only [Plane.Intersect] at hI
  split_ifs at hI
  simp only [Option.some.injEq, Prod.mk.injEq] at hI
  exact ⟨_, hI.2.symm, rfl, rfl, rfl, rfl⟩

/-- C8, at the failing input: the rectangle [-1,1]x[-1,1] at c = 5 in orientation
XZ under the identity transform, hit at distance 5 by the ray from the origin
along +y.  The in-plane axes of XZ are x and z, yet the hit record carries
dp/du = (1,0,0) and dp/dv = (0,1,0): dp/dv is the unit vector of the depth axis
y, not of the in-plane axis z. -/
theorem Plane.Intersect_tangent_frame_XZ :
    ∃ isect, (CreatePlaneShape Transform.identity Transform.identity false (Float.fin (-1))
        (Float.fin 1) (Float.fin (-1)) (Float.fin 1) (Float.fin 5) PlaneAxis.XZ).Intersect
      (Ray.mk ⟨Float.fin 0, Float.fin 0, Float.fin 0⟩ ⟨Float.fin 0, Float.fin 1, Float.fin 0⟩
        Float.pinf (Float.fin 0)) false = some (Float.fin 5, isect) ∧
      isect.dpdu = Vector3f.mk (Float.fin 1) (Float.fin 0) (Float.fin 0) ∧
      isect.dpdv = Vector3f.mk (Float.fin 0) (Float.fin 1) (Float.fin 0) ∧
      isect.dpdv ≠ Vector3f.mk (Float.fin 0) (Float.fin 0) (Float.fin 1) := by
  simp [Plane.Intersect, CreatePlaneShape, Transform.identity, Float.zero_eq, Float.one_eq,
    Float.fin_div]

/-! ## C9: the axis dispatch -/

/-- C9. Axis dispatch is one consistent, invertible permutation: Intersect (its
acceptance and its hit distance) and IntersectP on a plane of any orientation
are the XY test run on the object-space ray remapped by (x,y,z) for XY,
(x,z,y) for XZ and (y,z,x) for YZ; ObjectBound places (a0,b0,c) and (a1,b1,c),
and Sample places its (a,b,c) triple, by the placement of that orientation;
and remapping a placed triple returns the triple unchanged (as does placing a
remapped one). -/
theorem Plane.axis_dispatch_consistent :
    (∀ (P : Plane) (r : Ray) (alpha : Bool),
      (P.Intersect r alpha).map Prod.fst = (P.onRemappedRay.Intersect r alpha).map Prod.fst ∧
      P.IntersectP r alpha = P.onRemappedRay.IntersectP r alpha) ∧
    (∀ P : Plane, P.ObjectBound =
      Bounds3f.mk (Point3f.ofTriple (place P.axisType (P.a0, P.b0, P.c)))
        (Point3f.ofTriple (place P.axisType (P.a1, P.b1, P.c)))) ∧
    (∀ (sqrt : Float → Float) (P : Plane) (u : Point2f), (P.Sample sqrt u).1.p =
      (P.ObjectToWorld.point (Point3f.ofTriple (place P.axisType
        ((P.a1 - P.a0) * u.get 0, (P.b1 - P.b0) * u.get 1, sampleDepth))) ⟨0, 0, 0⟩).1) ∧
    (∀ (ax : PlaneAxis) (t : Float × Float × Float),
      remap ax (place ax t) = t ∧ place ax (remap ax t) = t) ∧
    (∀ x y z : Float, remap PlaneAxis.XY (x, y, z) = (x, y, z) ∧
      remap PlaneAxis.XZ (x, y, z) = (x, z, y) ∧ remap PlaneAxis.YZ (x, y, z) = (y, z, x)) := by
  refine ⟨?_, ?_, ?_, ?_, fun _ _ _ => ⟨rfl, rfl, rfl⟩⟩
  · intro P r alpha
    obtain ⟨o2w, w2o, rev, a0, a1, b0, b1, c, ax⟩ := P
    cases ax <;> refine ⟨?_, rfl⟩ <;>
      simp only [Plane.Intersect, Plane.onRemappedRay, remapRay, remap, Point3f.toTriple,
        Vector3f.toTriple, Point3f.ofTriple, Vector3f.ofTriple] <;>
      split_ifs <;> rfl
  · intro P
    obtain ⟨o2w, w2o, rev, a0, a1, b0, b1, c, ax⟩ := P
    cases ax <;> rfl
  · intro sqrt P u
    obtain ⟨o2w, w2o, rev, a0, a1, b0, b1, c, ax⟩ := P
    cases ax <;> rfl
  · intro ax t
    obtain ⟨x, y, z⟩ := t
    cases ax <;> exact ⟨rfl, rfl⟩

/-! ## C10: the bound -/

/-- C10. ObjectBound is the minimal box of the rectangle: for every orientation
and every rectangle of finite coordinates with a0 < a1 and b0 < b1, ObjectBound
returns the box whose corners are (a0,b0,c) and (a1,b1,c) placed per the
orientation; its minimum corner is componentwise <= its maximum corner; its
extent along the depth axis is zero; it contains every point of the rectangle;
and every box that contains every point of the rectangle contains both of its
corners. -/
theorem Plane.ObjectBound_minimal
    (o2w w2o : Transform) (rev : Bool) (ax : PlaneAxis) (a0 a1 b0 b1 c : ℚ)
    (ha : a0 < a1) (hb : b0 < b1) :
    let P := CreatePlaneShape o2w w2o rev (Float.fin a0) (Float.fin a1) (Float.fin b0)
      (Float.fin b1) (Float.fin c) ax
    P.ObjectBound = Bounds3f.mk (Point3f.ofRat (place ax (a0, b0, c)))
      (Point3f.ofRat (place ax (a1, b1, c))) ∧
    (P.ObjectBound.pMin.x ≤ P.ObjectBound.pMax.x ∧ P.ObjectBound.pMin.y ≤ P.ObjectBound.pMax.y ∧
      P.ObjectBound.pMin.z ≤ P.ObjectBound.pMax.z) ∧
    (remap ax P.ObjectBound.pMax.toTriple).2.2 - (remap ax P.ObjectBound.pMin.toTriple).2.2 = 0 ∧
    (∀ a b : ℚ, a0 ≤ a → a ≤ a1 → b0 ≤ b → b ≤ b1 →
      Bounds3f.Inside (Point3f.ofRat (place ax (a, b, c))) P.ObjectBound) ∧
    (∀ B : Bounds3f,
      (∀ a b : ℚ, a0 ≤ a → a ≤ a1 → b0 ≤ b → b ≤ b1 →
        Bounds3f.Inside (Point3f.ofRat (place ax (a, b, c))) B) →
      Bounds3f.Inside P.ObjectBound.pMin B ∧ Bounds3f.Inside P.ObjectBound.pMax B) := by
  intro P
  have hbox : P.ObjectBound = Bounds3f.mk (Point3f.ofRat (place ax (a0, b0, c)))
      (Point3f.ofRat (place ax (a1, b1, c))) := by
    cases ax <;> rfl
  refine ⟨hbox, ?_, ?_, ?_, ?_⟩
  · rw [hbox]
    cases ax <;>
      simp [place, Point3f.ofRat, le_of_lt ha, le_of_lt hb]
  · rw [hbox]
    cases ax <;>
      simp [place, remap, Point3f.ofRat, Point3f.toTriple, Float.zero_eq]
  · intro a b h1 h2 h3 h4
    rw [hbox]
    cases ax <;>
      simp [place, Point3f.ofRat, Bounds3f.Inside, h1, h2, h3, h4]
  · intro B hB
    rw [hbox]
    exact ⟨hB a0 b0 (le_refl a0) (le_of_lt ha) (le_refl b0) (le_of_lt hb),
      hB a1 b1 (le_of_lt ha) (le_refl a1) (le_of_lt hb) (le_refl b1)⟩

/-- Witness of C10: the rectangle [0,2]x[0,3] at c = 1 in orientation YZ. -/
theorem Plane.ObjectBound_minimal_witness :
    (CreatePlaneShape Transform.identity Transform.identity false (Float.fin 0) (Float.fin 2)
      (Float.fin 0) (Float.fin 3) (Float.fin 1) PlaneAxis.YZ).ObjectBound =
    Bounds3f.mk (Point3f.mk (Float.fin 1) (Float.fin 0) (Float.fin 0))
      (Point3f.mk (Float.fin 1) (Float.fin 2) (Float.fin 3)) :=
  (Plane.ObjectBound_minimal Transform.identity Transform.identity false PlaneAxis.YZ 0 2 0 3 1
    (by norm_num) (by norm_num)).1

/-! ## C11: degenerate rectangles -/

/-- C11, counterexample: the degenerate rectangle a0 = a1 = 0, [b0,b1] = [-1,1] at
c = 5 in orientation XY is a segment; the ray from the origin along +z meets it
at t = 5 with a = 0 and b = 0, and IntersectP returns true. -/
theorem Plane.IntersectP_degenerate_hit :
    (CreatePlaneShape Transform.identity Transform.identity false (Float.fin 0)
        (Float.fin 0) (Float.fin (-1)) (Float.fin 1) (Float.fin 5) PlaneAxis.XY).IntersectP
      (Ray.mk ⟨Float.fin 0, Float.fin 0, Float.fin 0⟩ ⟨Float.fin 0, Float.fin 0, Float.fin 1⟩
        Float.pinf (Float.fin 0)) false = true := by
  simp [Plane.IntersectP, CreatePlaneShape, Transform.identity, Float.zero_eq, Float.fin_div]

/-- C11, amended. For a rectangle with a0 = a1 or b0 = b1 and every object-space
ray of finite coordinates with a non-zero depth direction component, Intersect
returns false, so that the divisions by the interval widths, which follow the
acceptance, are not evaluated; and IntersectP returns true only for a ray that
meets the degenerate rectangle itself: a = a0 when a0 = a1, and b = b0 when
b0 = b1. -/
theorem Plane.degenerate_rectangle
    (o2w w2o : Transform) (rev alpha : Bool) (ax : PlaneAxis) (a0 a1 b0 b1 c : ℚ)
    (r : Ray) (ox oy oz dx dy dz : ℚ) (tMax time : Float) (oa ob oc da db dc : ℚ)
    (hray : w2o.ray r = Ray.mk ⟨Float.fin ox, Float.fin oy, Float.fin oz⟩
      ⟨Float.fin dx, Float.fin dy, Float.fin dz⟩ tMax time)
    (ho : remap ax (ox, oy, oz) = (oa, ob, oc))
    (hd : remap ax (dx, dy, dz) = (da, db, dc))
    (hdc : dc ≠ 0) (hdeg : a0 = a1 ∨ b0 = b1) :
    let P := CreatePlaneShape o2w w2o rev (Float.fin a0) (Float.fin a1) (Float.fin b0)
      (Float.fin b1) (Float.fin c) ax
    let a := oa + (c - oc) / dc * da
    let b := ob + (c - oc) / dc * db
    P.Intersect r alpha = none ∧
    (P.IntersectP r alpha = true → (a0 = a1 → a = a0) ∧ (b0 = b1 → b = b0)) := by
  intro P a b
  have hI := Plane.Intersect_finite o2w w2o rev alpha ax a0 a1 b0 b1 c r ox oy oz dx dy dz
    tMax time oa ob oc da db dc hray ho hd hdc
  have hP := Plane.IntersectP_finite o2w w2o rev alpha ax a0 a1 b0 b1 c r ox oy oz dx dy dz
    tMax time oa ob oc da db dc hray ho hd hdc
  constructor
  · show Plane.Intersect _ r alpha = none
    rw [hI, if_neg]
    intro h
    rcases hdeg with h1 | h1
    · exact absurd (lt_trans h.2.1.1 h.2.1.2) (by rw [h1]; exact lt_irrefl a1)
    · exact absurd (lt_trans h.2.2.1 h.2.2.2) (by rw [h1]; exact lt_irrefl b1)
  · intro h
    have h2 : Plane.IntersectP _ r alpha = true := h
    rw [hP, decide_eq_true_iff] at h2
    constructor
    · intro h1
      exact le_antisymm (by rw [h1]; exact h2.2.1.2) h2.2.1.1
    · intro h1
      exact le_antisymm (by rw [h1]; exact h2.2.2.2) h2.2.2.1

/-- Witness of C11: the segment a0 = a1 = 0, [b0,b1] = [-1,1] at c = 5 in
orientation XY and the ray from the origin along +z, which passes through it:
Intersect reports no hit. -/
theorem Plane.degenerate_rectangle_witness :
    (CreatePlaneShape Transform.identity Transform.identity false (Float.fin 0)
        (Float.fin 0) (Float.fin (-1)) (Float.fin 1) (Float.fin 5) PlaneAxis.XY).Intersect
      (Ray.mk ⟨Float.fin 0, Float.fin 0, Float.fin 0⟩ ⟨Float.fin 0, Float.fin 0, Float.fin 1⟩
        Float.pinf (Float.fin 0)) false = none :=
  (Plane.degenerate_rectangle Transform.identity Transform.identity false false
    PlaneAxis.XY 0 0 (-1) 1 5
    (Ray.mk ⟨Float.fin 0, Float.fin 0, Float.fin 0⟩ ⟨Float.fin 0, Float.fin 0, Float.fin 1⟩
      Float.pinf (Float.fin 0))
    0 0 0 0 0 1 Float.pinf (Float.fin 0) 0 0 0 0 0 1 rfl rfl rfl (by norm_num)
    (Or.inl rfl)).1

/-! ## C12 to C15: sampling -/

/-- C12, at the failing input: the rectangle [1,2]x[1,2] at c = 0 in orientation
XY under the identity transform, sampled at u = (1/2, 1/2).  Sample returns the
point (1/2, 1/2, 1/10000): the extents scaled by u, without the offsets a0 and
b0.  Its in-plane coordinates lie below a0 = 1 and b0 = 1. -/
theorem Plane.Sample_off_rectangle :
    ∀ sqrt : Float → Float,
      ((CreatePlaneShape Transform.identity Transform.identity false (Float.fin 1)
        (Float.fin 2) (Float.fin 1) (Float.fin 2) (Float.fin 0) PlaneAxis.XY).Sample sqrt
        (Point2f.mk (Float.fin (1 / 2)) (Float.fin (1 / 2)))).1.p =
        Point3f.mk (Float.fin (1 / 2)) (Float.fin (1 / 2)) (Float.fin (1 / 10000)) ∧
      ¬ (Float.fin 1 ≤ ((CreatePlaneShape Transform.identity Transform.identity false
        (Float.fin 1) (Float.fin 2) (Float.fin 1) (Float.fin 2) (Float.fin 0)
        PlaneAxis.XY).Sample sqrt (Point2f.mk (Float.fin (1 / 2)) (Float.fin (1 / 2)))).1.p.x) := by
  intro sqrt
  simp [Plane.Sample, CreatePlaneShape, Transform.identity, Point2f.get, sampleDepth]
  norm_num

/-- C13, what the code does: under the identity transform the depth-axis
coordinate of the point produced by Sample is the literal 1/10000 for every
orientation, every rectangle, every c and every u; and no epsilon makes
1/10000 equal to c + epsilon for every c. -/
theorem Plane.Sample_depth_constant :
    (∀ (sqrt : Float → Float) (w2o : Transform) (rev : Bool) (ax : PlaneAxis)
      (a0 a1 b0 b1 c : Float) (u : Point2f),
      (remap ax ((CreatePlaneShape Transform.identity w2o rev a0 a1 b0 b1 c ax).Sample sqrt
        u).1.p.toTriple).2.2 = Float.fin (1 / 10000)) ∧
    ¬ ∃ eps : Float, ∀ c : ℚ, Float.fin (1 / 10000) = Float.fin c + eps := by
  constructor
  · intro sqrt w2o rev ax a0 a1 b0 b1 c u
    cases ax <;> rfl
  · rintro ⟨eps, h⟩
    have h0 := h 0
    have h1 := h 1
    cases eps with
    | nan => exact Float.noConfusion h0
    | ninf => exact Float.noConfusion h0
    | pinf => exact Float.noConfusion h0
    | fin e =>
      simp only [Float.fin_add, Float.fin.injEq] at h0 h1
      linarith

/-- C14. Sample density: for every orientation, every rectangle of finite
coordinates with non-zero area, every sample u and every transform pair, the
density written by Sample is 1/Area() = 1/((a1 - a0)*(b1 - b0)). -/
theorem Plane.Sample_pdf
    (sqrt : Float → Float) (o2w w2o : Transform) (rev : Bool) (ax : PlaneAxis)
    (a0 a1 b0 b1 c : ℚ) (u : Point2f) (hA : (a1 - a0) * (b1 - b0) ≠ 0) :
    let P := CreatePlaneShape o2w w2o rev (Float.fin a0) (Float.fin a1) (Float.fin b0)
      (Float.fin b1) (Float.fin c) ax
    (P.Sample sqrt u).2 = 1 / P.Area ∧
    (P.Sample sqrt u).2 = Float.fin (1 / ((a1 - a0) * (b1 - b0))) := by
  intro P
  refine ⟨rfl, ?_⟩
  show 1 / Plane.Area (CreatePlaneShape o2w w2o rev (Float.fin a0) (Float.fin a1) (Float.fin b0)
    (Float.fin b1) (Float.fin c) ax) = _
  simp only [Plane.Area, CreatePlaneShape, Float.fin_sub, Float.fin_mul, Float.one_eq,
    Float.fin_div _ _ hA]

/-- Witness of C14: the rectangle [0,2]x[0,3] has density 1/6. -/
theorem Plane.Sample_pdf_witness :
    ((CreatePlaneShape Transform.identity Transform.identity false (Float.fin 0)
      (Float.fin 2) (Float.fin 0) (Float.fin 3) (Float.fin 7) PlaneAxis.XZ).Sample
      (fun x => x) (Point2f.mk (Float.fin (1 / 4)) (Float.fin (3 / 4)))).2 = Float.fin (1 / 6) := by
  rw [(Plane.Sample_pdf (fun x => x) Transform.identity Transform.identity false PlaneAxis.XZ
    0 2 0 3 7 (Point2f.mk (Float.fin (1 / 4)) (Float.fin (3 / 4))) (by norm_num)).2]
  norm_num

/-- C15. Sample normal: for a square root with sqrt 1 = 1, under the identity
object-to-world transform, for every orientation, rectangle and sample u, the
normal returned by Sample is the unit vector of the depth axis ((0,0,1) for
XY, (0,1,0) for XZ, (1,0,0) for YZ) when the orientation-reversal flag is clear
and its negation when the flag is set; its squared length is 1 and its dot
products with the unit vectors of both in-plane axes are 0. -/
theorem Plane.Sample_normal
    (sqrt : Float → Float) (hsqrt : sqrt (Float.fin 1) = Float.fin 1)
    (w2o : Transform) (rev : Bool) (ax : PlaneAxis) (a0 a1 b0 b1 c : Float) (u : Point2f) :
    let n := ((CreatePlaneShape Transform.identity w2o rev a0 a1 b0 b1 c ax).Sample sqrt u).1.n
    let s : ℚ := if rev = true then -1 else 1
    n = (match ax with
      | PlaneAxis.XY => Normal3f.mk (Float.fin 0) (Float.fin 0) (Float.fin s)
      | PlaneAxis.XZ => Normal3f.mk (Float.fin 0) (Float.fin s) (Float.fin 0)
      | PlaneAxis.YZ => Normal3f.mk (Float.fin s) (Float.fin 0) (Float.fin 0)) ∧
    n.x * n.x + n.y * n.y + n.z * n.z = Float.fin 1 ∧
    Dot n (Vector3f.ofTriple (place ax (1, 0, 0))) = Float.fin 0 ∧
    Dot n (Vector3f.ofTriple (place ax (0, 1, 0))) = Float.fin 0 := by
  intro n s
  have hn : n = (match ax with
      | PlaneAxis.XY => Normal3f.mk (Float.fin 0) (Float.fin 0) (Float.fin s)
      | PlaneAxis.XZ => Normal3f.mk (Float.fin 0) (Float.fin s) (Float.fin 0)
      | PlaneAxis.YZ => Normal3f.mk (Float.fin s) (Float.fin 0) (Float.fin 0)) := by
    cases ax <;> cases rev <;>
      simp [n, s, Plane.Sample, CreatePlaneShape, Transform.identity, Normalize, Normal3f.scale,
        Float.zero_eq, Float.one_eq, hsqrt, Float.fin_div]
  refine ⟨hn, ?_, ?_, ?_⟩ <;> rw [hn] <;> cases ax <;> cases rev <;>
    simp [s, Dot, place, Vector3f.ofTriple, Float.zero_eq, Float.one_eq]

/-- Witness of C15: in orientation XZ with the flag set the normal is (0,-1,0). -/
theorem Plane.Sample_normal_witness :
    ((CreatePlaneShape Transform.identity Transform.identity true (Float.fin 0) (Float.fin 2)
      (Float.fin 0) (Float.fin 3) (Float.fin 7) PlaneAxis.XZ).Sample
      (fun x => x) (Point2f.mk (Float.fin (1 / 4)) (Float.fin (3 / 4)))).1.n =
    Normal3f.mk (Float.fin 0) (Float.fin (-1)) (Float.fin 0) :=
  (Plane.Sample_normal (fun x => x) rfl Transform.identity true PlaneAxis.XZ (Float.fin 0)
    (Float.fin 2) (Float.fin 0) (Float.fin 3) (Float.fin 7)
    (Point2f.mk (Float.fin (1 / 4)) (Float.fin (3 / 4)))).1

/-! ## C16: the area -/

/-- C16. Area: for every plane built by CreatePlaneShape with finite parameters,
Area() is (a1 - a0)*(b1 - b0), whatever c, the orientation, the transforms and
the flag, and it is strictly positive when a0 < a1 and b0 < b1. -/
theorem Plane.Area_eq
    (o2w w2o : Transform) (rev : Bool) (ax : PlaneAxis) (a0 a1 b0 b1 c : ℚ) :
    (CreatePlaneShape o2w w2o rev (Float.fin a0) (Float.fin a1) (Float.fin b0)
      (Float.fin b1) (Float.fin c) ax).Area = Float.fin ((a1 - a0) * (b1 - b0)) ∧
    (a0 < a1 → b0 < b1 →
      (0 : Float) < (CreatePlaneShape o2w w2o rev (Float.fin a0) (Float.fin a1) (Float.fin b0)
        (Float.fin b1) (Float.fin c) ax).Area) := by
  have h : (CreatePlaneShape o2w w2o rev (Float.fin a0) (Float.fin a1) (Float.fin b0)
      (Float.fin b1) (Float.fin c) ax).Area = Float.fin ((a1 - a0) * (b1 - b0)) := by
    simp only [Plane.Area, CreatePlaneShape, Float.fin_sub, Float.fin_mul]
  refine ⟨h, ?_⟩
  intro ha hb
  rw [h, Float.zero_eq, Float.fin_lt]
  exact mul_pos (sub_pos.mpr ha) (sub_pos.mpr hb)

/-- Witness of C16: a0 = 0, a1 = 2, b0 = 0, b1 = 3 gives Area() = 6, a positive
value. -/
theorem Plane.Area_eq_witness :
    (CreatePlaneShape Transform.identity Transform.identity false (Float.fin 0) (Float.fin 2)
      (Float.fin 0) (Float.fin 3) (Float.fin 7) PlaneAxis.YZ).Area = Float.fin 6 ∧
    (0 : Float) < (CreatePlaneShape Transform.identity Transform.identity false (Float.fin 0)
      (Float.fin 2) (Float.fin 0) (Float.fin 3) (Float.fin 7) PlaneAxis.YZ).Area := by
  have h := Plane.Area_eq Transform.identity Transform.identity false PlaneAxis.YZ 0 2 0 3 7
  refine ⟨?_, h.2 (by norm_num) (by norm_num)⟩
  rw [h.1]
  norm_num

/-! ## C17 and C18: the box factory -/

/-- C17, at the failing input: for the corners (0,0,0) and (1,1,1) the six planes
returned by CreateAABBShape are two XY, two XZ and two YZ planes, all with
c = 0; no plane of any orientation has c = 1, the coordinate of the three far
faces. -/
theorem CreateAABBShape_unit_box :
    ∀ (o2w w2o : Transform) (rev : Bool),
      (CreateAABBShape o2w w2o rev ⟨Float.fin 0, Float.fin 0, Float.fin 0⟩
        ⟨Float.fin 1, Float.fin 1, Float.fin 1⟩).map (fun P => (P.axisType, P.c)) =
      [(PlaneAxis.XY, Float.fin 0), (PlaneAxis.XY, Float.fin 0), (PlaneAxis.XZ, Float.fin 0),
        (PlaneAxis.XZ, Float.fin 0), (PlaneAxis.YZ, Float.fin 0), (PlaneAxis.YZ, Float.fin 0)] ∧
      ¬ ∃ P, P ∈ CreateAABBShape o2w w2o rev ⟨Float.fin 0, Float.fin 0, Float.fin 0⟩
        ⟨Float.fin 1, Float.fin 1, Float.fin 1⟩ ∧ P.c = Float.fin 1 := by
  intro o2w w2o rev
  refine ⟨rfl, ?_⟩
  rintro ⟨P, hP, hc⟩
  simp only [CreateAABBShape, CreatePlaneShape, List.mem_cons, List.mem_singleton,
    List.not_mem_nil, or_false] at hP
  rcases hP with h | h | h | h | h | h <;>
    (rw [h] at hc
     simp only [Float.fin.injEq] at hc
     exact absurd hc (by norm_num))

/-- C18. Box factory shape of the result: for every pair of corners, transform
pair and flag, CreateAABBShape returns exactly six planes, in the order XY, XY,
XZ, XZ, YZ, YZ, each carrying the given transform pair and flag; the two planes
of each orientation have the same parameters: the in-plane intervals
[pMin.x,pMax.x]x[pMin.y,pMax.y] for XY, [pMin.x,pMax.x]x[pMin.z,pMax.z] for XZ,
[pMin.y,pMax.y]x[pMin.z,pMax.z] for YZ, and the depth c at pMin.z, pMin.y and
pMin.x respectively. -/
theorem CreateAABBShape_shape :
    ∀ (o2w w2o : Transform) (rev : Bool) (pMin pMax : Point3f),
      (CreateAABBShape o2w w2o rev pMin pMax).length = 6 ∧
      (CreateAABBShape o2w w2o rev pMin pMax).map Plane.axisType =
        [PlaneAxis.XY, PlaneAxis.XY, PlaneAxis.XZ, PlaneAxis.XZ, PlaneAxis.YZ, PlaneAxis.YZ] ∧
      (CreateAABBShape o2w w2o rev pMin pMax).map (fun P => (P.a0, P.a1, P.b0, P.b1, P.c)) =
        [(pMin.x, pMax.x, pMin.y, pMax.y, pMin.z), (pMin.x, pMax.x, pMin.y, pMax.y, pMin.z),
          (pMin.x, pMax.x, pMin.z, pMax.z, pMin.y), (pMin.x, pMax.x, pMin.z, pMax.z, pMin.y),
          (pMin.y, pMax.y, pMin.z, pMax.z, pMin.x), (pMin.y, pMax.y, pMin.z, pMax.z, pMin.x)] ∧
      (CreateAABBShape o2w w2o rev pMin pMax).map Plane.ObjectToWorld = List.replicate 6 o2w ∧
      (CreateAABBShape o2w w2o rev pMin pMax).map Plane.WorldToObject = List.replicate 6 w2o ∧
      (CreateAABBShape o2w w2o rev pMin pMax).map Plane.reverseOrientation =
        List.replicate 6 rev := by
  intro o2w w2o rev pMin pMax
  exact ⟨rfl, rfl, rfl, rfl, rfl, rfl⟩

/-! ## C19 and C20: the two queries together, and the bound -/

/-- The closed in-plane test passes whenever the open one does. -/
theorem Float.closed_of_open (a a0 a1 b b0 b1 : Float)
    (h : ¬ (a ≤ a0 ∨ a1 ≤ a ∨ b ≤ b0 ∨ b1 ≤ b)) : ¬ (a < a0 ∨ a1 < a ∨ b < b0 ∨ b1 < b) := by
  intro hc
  apply h
  rcases hc with hc | hc | hc | hc
  · exact Or.inl (Float.le_of_lt _ _ hc)
  · exact Or.inr (Or.inl (Float.le_of_lt _ _ hc))
  · exact Or.inr (Or.inr (Or.inl (Float.le_of_lt _ _ hc)))
  · exact Or.inr (Or.inr (Or.inr (Float.le_of_lt _ _ hc)))

/-- When the closed in-plane test passes and the open one fails, a coordinate
is on the boundary. -/
theorem Float.boundary_of_closed_not_open (a a0 a1 b b0 b1 : Float)
    (hc : ¬ (a < a0 ∨ a1 < a ∨ b < b0 ∨ b1 < b)) (ho : a ≤ a0 ∨ a1 ≤ a ∨ b ≤ b0 ∨ b1 ≤ b) :
    a = a0 ∨ a = a1 ∨ b = b0 ∨ b = b1 := by
  simp only [not_or] at hc
  rcases ho with h | h | h | h
  · exact Or.inl (Float.eq_of_le_of_not_lt _ _ h hc.1)
  · exact Or.inr (Or.inl (Float.eq_of_le_of_not_lt _ _ h hc.2.1).symm)
  · exact Or.inr (Or.inr (Or.inl (Float.eq_of_le_of_not_lt _ _ h hc.2.2.1)))
  · exact Or.inr (Or.inr (Or.inr (Float.eq_of_le_of_not_lt _ _ h hc.2.2.2).symm))

/-- C19. Intersect implies IntersectP: for every plane (any orientation, any
parameters, NaN and infinities included), every ray and both values of
testAlphaTexture in either query, if Intersect returns true then IntersectP
returns true; and if IntersectP returns true while Intersect returns false,
then an in-plane hit coordinate lies on the boundary: a = a0, a = a1, b = b0
or b = b1. -/
theorem Plane.Intersect_implies_IntersectP (P : Plane) (r : Ray) (alpha alphaP : Bool) :
    ((P.Intersect r alpha).isSome = true → P.IntersectP r alphaP = true) ∧
    (P.IntersectP r alphaP = true → (P.Intersect r alpha).isSome = false →
      (P.hitCoords r).1 = P.a0 ∨ (P.hitCoords r).1 = P.a1 ∨
        (P.hitCoords r).2 = P.b0 ∨ (P.hitCoords r).2 = P.b1) := by
  obtain ⟨o2w, w2o, rev, a0, a1, b0, b1, c, ax⟩ := P
  cases ax <;>
    simp only [Plane.Intersect, Plane.IntersectP, Plane.hitCoords, remap, Point3f.toTriple,
      Vector3f.toTriple, ge_iff_le, gt_iff_lt] <;>
    (constructor
     · intro h
       split_ifs at h with h1 h2
       · exact absurd h (by simp)
       · exact absurd h (by simp)
       · rw [if_neg h1, if_neg (Float.closed_of_open _ _ _ _ _ _ h2)]
     · intro hP hI
       split_ifs at hP with h1 h2
       split_ifs at hI with h3
       · exact Float.boundary_of_closed_not_open _ _ _ _ _ _ h2 h3
       · exact absurd hI (by simp))

/-- Witness of C19: the rectangle [-1,1]x[-1,1] at c = 5 in orientation XY and the
ray from (1,0,0) along +z with tMax = 10: IntersectP returns true, Intersect
returns false, and so a hit coordinate is on the boundary (here a = a1 = 1). -/
theorem Plane.Intersect_implies_IntersectP_witness :
    ((CreatePlaneShape Transform.identity Transform.identity false (Float.fin (-1))
        (Float.fin 1) (Float.fin (-1)) (Float.fin 1) (Float.fin 5) PlaneAxis.XY).hitCoords
      (Ray.mk ⟨Float.fin 1, Float.fin 0, Float.fin 0⟩ ⟨Float.fin 0, Float.fin 0, Float.fin 1⟩
        (Float.fin 10) (Float.fin 0))).1 = Float.fin (-1) ∨
    ((CreatePlaneShape Transform.identity Transform.identity false (Float.fin (-1))
        (Float.fin 1) (Float.fin (-1)) (Float.fin 1) (Float.fin 5) PlaneAxis.XY).hitCoords
      (Ray.mk ⟨Float.fin 1, Float.fin 0, Float.fin 0⟩ ⟨Float.fin 0, Float.fin 0, Float.fin 1⟩
        (Float.fin 10) (Float.fin 0))).1 = Float.fin 1 ∨
    ((CreatePlaneShape Transform.identity Transform.identity false (Float.fin (-1))
        (Float.fin 1) (Float.fin (-1)) (Float.fin 1) (Float.fin 5) PlaneAxis.XY).hitCoords
      (Ray.mk ⟨Float.fin 1, Float.fin 0, Float.fin 0⟩ ⟨Float.fin 0, Float.fin 0, Float.fin 1⟩
        (Float.fin 10) (Float.fin 0))).2 = Float.fin (-1) ∨
    ((CreatePlaneShape Transform.identity Transform.identity false (Float.fin (-1))
        (Float.fin 1) (Float.fin (-1)) (Float.fin 1) (Float.fin 5) PlaneAxis.XY).hitCoords
      (Ray.mk ⟨Float.fin 1, Float.fin 0, Float.fin 0⟩ ⟨Float.fin 0, Float.fin 0, Float.fin 1⟩
        (Float.fin 10) (Float.fin 0))).2 = Float.fin 1 :=
  (Plane.Intersect_implies_IntersectP
    (CreatePlaneShape Transform.identity Transform.identity false (Float.fin (-1))
      (Float.fin 1) (Float.fin (-1)) (Float.fin 1) (Float.fin 5) PlaneAxis.XY)
    (Ray.mk ⟨Float.fin 1, Float.fin 0, Float.fin 0⟩ ⟨Float.fin 0, Float.fin 0, Float.fin 1⟩
      (Float.fin 10) (Float.fin 0)) false true).2
    (by
      simp [Plane.IntersectP, CreatePlaneShape, Transform.identity, Float.zero_eq,
        Float.fin_div]
      norm_num)
    (by
      simp [Plane.Intersect, CreatePlaneShape, Transform.identity, Float.zero_eq,
        Float.fin_div])

/-- C20. Accepted hits lie on the rectangle and inside its bound: in exact
arithmetic, for every orientation, every rectangle and every object-space ray
of finite coordinates with a non-zero depth direction component for which
Intersect returns true, the object-space hit point ray(tHit) is the point with
in-plane coordinates (a, b) and depth c, with a0 < a < a1 and b0 < b < b1, and it
is contained in the box returned by ObjectBound. -/
theorem Plane.hit_on_rectangle
    (o2w w2o : Transform) (rev alpha : Bool) (ax : PlaneAxis) (a0 a1 b0 b1 c : ℚ)
    (r : Ray) (ox oy oz dx dy dz : ℚ) (tMax time : Float) (oa ob oc da db dc : ℚ)
    (hray : w2o.ray r = Ray.mk ⟨Float.fin ox, Float.fin oy, Float.fin oz⟩
      ⟨Float.fin dx, Float.fin dy, Float.fin dz⟩ tMax time)
    (ho : remap ax (ox, oy, oz) = (oa, ob, oc))
    (hd : remap ax (dx, dy, dz) = (da, db, dc))
    (hdc : dc ≠ 0) (tHit : Float) (isect : SurfaceInteraction)
    (hI : (CreatePlaneShape o2w w2o rev (Float.fin a0) (Float.fin a1) (Float.fin b0)
      (Float.fin b1) (Float.fin c) ax).Intersect r alpha = some (tHit, isect)) :
    let P := CreatePlaneShape o2w w2o rev (Float.fin a0) (Float.fin a1) (Float.fin b0)
      (Float.fin b1) (Float.fin c) ax
    let a := oa + (c - oc) / dc * da
    let b := ob + (c - oc) / dc * db
    (w2o.ray r).at tHit = Point3f.ofRat (place ax (a, b, c)) ∧
    (a0 < a ∧ a < a1) ∧ (b0 < b ∧ b < b1) ∧
    Bounds3f.Inside ((w2o.ray r).at tHit) P.ObjectBound := by
  intro P a b
  rw [Plane.Intersect_finite o2w w2o rev alpha ax a0 a1 b0 b1 c r ox oy oz dx dy dz
    tMax time oa ob oc da db dc hray ho hd hdc] at hI
  split_ifs at hI with hc
  simp only [Option.some.injEq, Prod.mk.injEq] at hI
  obtain ⟨ht, -⟩ := hI
  subst ht
  have hdepth : oc + dc * ((c - oc) / dc) = c := by
    field_simp
  have hpt : (w2o.ray r).at (Float.fin ((c - oc) / dc)) = Point3f.ofRat (place ax (a, b, c)) := by
    rw [hray]
    cases ax <;> simp only [remap, Prod.mk.injEq] at ho hd <;>
      obtain ⟨ho1, ho2, ho3⟩ := ho <;> obtain ⟨hd1, hd2, hd3⟩ := hd <;>
      subst ox oy oz dx dy dz <;>
      simp only [Ray.at, Point3f.addVec, Vector3f.scale, Float.fin_mul, Float.fin_add, place,
        Point3f.ofRat, hdepth, a, b, mul_comm]
  refine ⟨hpt, hc.2.1, hc.2.2, ?_⟩
  rw [hpt]
  have hbox : P.ObjectBound = Bounds3f.mk (Point3f.ofRat (place ax (a0, b0, c)))
      (Point3f.ofRat (place ax (a1, b1, c))) := by
    cases ax <;> rfl
  rw [hbox]
  cases ax <;>
    simp [place, Point3f.ofRat, Bounds3f.Inside, le_of_lt hc.2.1.1, le_of_lt hc.2.1.2,
      le_of_lt hc.2.2.1, le_of_lt hc.2.2.2, a, b]

/-- Witness of C20: in the scenario of the specification the object-space hit
point is (0,0,5), inside the bound of the rectangle. -/
theorem Plane.hit_on_rectangle_witness :
    ∃ isect, (CreatePlaneShape Transform.identity Transform.identity false (Float.fin (-1))
        (Float.fin 1) (Float.fin (-1)) (Float.fin 1) (Float.fin 5) PlaneAxis.XY).Intersect
      (Ray.mk ⟨Float.fin 0, Float.fin 0, Float.fin 0⟩ ⟨Float.fin 0, Float.fin 0, Float.fin 1⟩
        Float.pinf (Float.fin 0)) false = some (Float.fin 5, isect) ∧
      Bounds3f.Inside
        ((Transform.identity.ray (Ray.mk ⟨Float.fin 0, Float.fin 0, Float.fin 0⟩
          ⟨Float.fin 0, Float.fin 0, Float.fin 1⟩ Float.pinf (Float.fin 0))).at (Float.fin 5))
        (CreatePlaneShape Transform.identity Transform.identity false (Float.fin (-1))
          (Float.fin 1) (Float.fin (-1)) (Float.fin 1) (Float.fin 5) PlaneAxis.XY).ObjectBound := by
  obtain ⟨isect, hI⟩ := Plane.Intersect_scenario_record
  exact ⟨isect, hI, (Plane.hit_on_rectangle Transform.identity Transform.identity false false
    PlaneAxis.XY (-1) 1 (-1) 1 5
    (Ray.mk ⟨Float.fin 0, Float.fin 0, Float.fin 0⟩ ⟨Float.fin 0, Float.fin 0, Float.fin 1⟩
      Float.pinf (Float.fin 0))
    0 0 0 0 0 1 Float.pinf (Float.fin 0) 0 0 0 0 0 1 rfl rfl rfl (by norm_num)
    (Float.fin 5) isect hI).2.2.2⟩

end pbrt
